import Mathlib

/-!
# Contiguous multi-dimensional allocation: `memory_management.c`

A shallow embedding of `src/memory_management.c` / `src/memory_management.h`.

Modelling conventions

* Pointers are natural numbers, `0` is `NULL`.  A pointer returned by the
  underlying allocator names one heap block; addresses inside the flat buffer
  are obtained by adding a byte offset to its base.
* The data model is LP64: `unsigned int` is 32 bits, `size_t`, `unsigned long`
  and pointers are 64 bits, `sizeof(int) = sizeof(float) = 4`,
  `sizeof(long) = sizeof(double) = sizeof(void*) = 8`.  Unsigned arithmetic is
  arithmetic on `Nat` reduced modulo `2^32` resp. `2^64` at every operation
  that the C expression performs in that type.
* The global `arrays` of the source is the `arrays` component of the state.
* `calloc` and `free` of the C library are modelled over a heap of blocks.
  Whether a `calloc` request is granted, and at which address, is decided by
  the environment: the state carries the list of the allocator's future answers
  (`oracle`), one per request, `0` meaning refusal.  An answer naming a block
  that is still live is not a possible answer of an allocator and counts as a
  refusal, as does an exhausted list.
* Every `calloc` and `free` call is appended to `trace`.
* `ub` records that the execution left defined behaviour: `free` of a pointer
  that is neither `NULL` nor a live block, or a subscript access outside a live
  index block.
* The diagnostic output (`log_error`, `memory_shortage_msg`) is not modelled.
-/

namespace MemoryManagement

/-- Capacity of the registry, `#define MAX_NUMBER_OF_ALLOCATED_ARRAYS 150`. -/
def MAX_NUMBER_OF_ALLOCATED_ARRAYS : Nat := 150

/-- The enumeration `VariableType` of `memory_management.h`. -/
inductive VariableType where
  | INT
  | UNSIGNED_INT
  | CHAR
  | LONG
  | FLOAT
  | DOUBLE
deriving DecidableEq, Repr

/-- Number of values of `unsigned int`. -/
def UINT_RANGE : Nat := 2 ^ 32

/-- Number of values of `size_t` and of `unsigned long`. -/
def SIZE_RANGE : Nat := 2 ^ 64

/-- Value of `sizeof(int)`. -/
def sizeof_int : Nat := 4

/-- Value of `sizeof(long)`. -/
def sizeof_long : Nat := 8

/-- Value of `sizeof(float)`. -/
def sizeof_float : Nat := 4

/-- Value of `sizeof(double)`. -/
def sizeof_double : Nat := 8

/-- Value of `sizeof(void*)`. -/
def sizeof_ptr : Nat := 8

/-- One heap block: `nmemb` cells of `size` bytes each, as requested from
`calloc`; `cells k` is the content of cell `k`. -/
structure Block where
  live : Bool
  nmemb : Nat
  size : Nat
  cells : Nat → Nat

/-- A call of the C library allocator. -/
inductive Event where
  | calloc (nmemb size ret : Nat)
  | free (ptr : Nat)
deriving DecidableEq, Repr

/-- The struct `Arrays` of the source: the two registry tables, the running
byte total and the cursor. -/
structure Arrays where
  elements : Nat → Nat
  address : Nat → Nat
  total_size : Nat
  counter : Nat

/-- Program state: the global `arrays`, the C heap, the future answers of the
underlying allocator, the calls made to it so far, and the undefined-behaviour
flag. -/
structure State where
  arrays : Arrays
  heap : Nat → Block
  oracle : List Nat
  trace : List Event
  ub : Bool

/-- A block that was never allocated. -/
def Block.none : Block := ⟨false, 0, 0, fun _ => 0⟩

/-- State at program start: `Arrays arrays = {.counter = 0, .total_size = 0}`
(all table entries `NULL`), empty heap; `o` lists the allocator's answers. -/
def State.init (o : List Nat) : State :=
  { arrays := ⟨fun _ => 0, fun _ => 0, 0, 0⟩
    heap := fun _ => Block.none
    oracle := o
    trace := []
    ub := false }

/-- The C library `calloc(nmemb, size)`: the next answer `p` of the allocator
is consumed; if it is `0` or names a live block the request is refused,
otherwise `p` becomes a live block of `nmemb` zeroed cells. -/
def calloc (s : State) (nmemb size : Nat) : Nat × State :=
  match s.oracle with
  | [] => (0, { s with trace := s.trace ++ [Event.calloc nmemb size 0] })
  | p :: rest =>
    if p = 0 ∨ (s.heap p).live = true then
      (0, { s with oracle := rest, trace := s.trace ++ [Event.calloc nmemb size 0] })
    else
      (p, { s with
              oracle := rest
              heap := Function.update s.heap p ⟨true, nmemb, size, fun _ => 0⟩
              trace := s.trace ++ [Event.calloc nmemb size p] })

/-- The C library `free(p)`: no effect on `NULL`, releases a live block,
undefined behaviour on anything else. -/
def free (s : State) (p : Nat) : State :=
  let s1 := { s with trace := s.trace ++ [Event.free p] }
  if p = 0 then s1
  else if (s.heap p).live = true then
    { s1 with heap := Function.update s.heap p { s.heap p with live := false } }
  else { s1 with ub := true }

/-- Access `p[i]` to a cell of an index level is defined when `p` is a live block
of pointer-sized cells and `i` is within it. -/
def validCell (s : State) (p i : Nat) : Bool :=
  decide (p ≠ 0) && (s.heap p).live && decide ((s.heap p).size = sizeof_ptr) &&
    decide (i < (s.heap p).nmemb)

/-- Read of `p[i]` where `p` is an index level. -/
def load (s : State) (p i : Nat) : Nat × State :=
  if validCell s p i = true then ((s.heap p).cells i, s)
  else (0, { s with ub := true })

/-- Assignment `p[i] = v` where `p` is an index level. -/
def store (s : State) (p i v : Nat) : State :=
  if validCell s p i = true then
    { s with heap := Function.update s.heap p
                { s.heap p with cells := Function.update (s.heap p).cells i v } }
  else { s with ub := true }

/-- Statement `arrays.total_size += (__nmemb * __size)`: the product is a
`size_t`, the total an `unsigned long`. -/
def addTotal (s : State) (nmemb size : Nat) : State :=
  { s with arrays :=
      { s.arrays with
          total_size := (s.arrays.total_size + (nmemb * size) % SIZE_RANGE) % SIZE_RANGE } }

/-- The static `_calloc`: adds `__nmemb * __size` to the running total, then
calls `calloc`. -/
def _calloc (s : State) (nmemb size : Nat) : Nat × State :=
  calloc (addTotal s nmemb size) nmemb size

/-- The static `get_variable_size`: `sizeof` of the element type, `0` for the
tags of the `default` branch. -/
def get_variable_size : VariableType → Nat
  | VariableType.INT => sizeof_int
  | VariableType.LONG => sizeof_long
  | VariableType.FLOAT => sizeof_float
  | VariableType.DOUBLE => sizeof_double
  | _ => 0

/-- The static `isLimitReached`: `arrays.counter >= MAX_NUMBER_OF_ALLOCATED_ARRAYS`. -/
def isLimitReached (s : State) : Bool :=
  decide (s.arrays.counter ≥ MAX_NUMBER_OF_ALLOCATED_ARRAYS)

/-- Source `malloc1D`. -/
def malloc1D (s : State) (size : Nat) (type : VariableType) : Nat × State :=
  let variable_size := get_variable_size type
  let r := _calloc s variable_size size
  if r.1 = 0 then (0, r.2) else (r.1, r.2)

/-- Statement `arrays.counter++` (on an `unsigned int`). -/
def bumpCounter (s : State) : State :=
  { s with arrays := { s.arrays with counter := (s.arrays.counter + 1) % UINT_RANGE } }

/-- Assignment `arrays.elements[index] = e`. -/
def setElements (s : State) (index e : Nat) : State :=
  { s with arrays := { s.arrays with elements := Function.update s.arrays.elements index e } }

/-- Assignment `arrays.address[index] = a`. -/
def setAddress (s : State) (index a : Nat) : State :=
  { s with arrays := { s.arrays with address := Function.update s.arrays.address index a } }

/-- Byte offset `(i * size_y) * variable_size` of `malloc2D`: the product
`i * size_y` is an `unsigned int`, the multiplication by `variable_size` is in
`size_t`. -/
def offset2D (size_y variable_size i : Nat) : Nat :=
  (((i * size_y) % UINT_RANGE) * variable_size) % SIZE_RANGE

/-- The loop `for(i = 0; i < size_x; i++) array2D[i] = elements + ...` of
`malloc2D`; the first numeric argument is the number of iterations left
(`size_x - i`), the second is `i`. -/
def malloc2D_loop (size_y variable_size elements array2D : Nat) : Nat → Nat → State → State
  | 0, _, s => s
  | n + 1, i, s =>
    malloc2D_loop size_y variable_size elements array2D n (i + 1)
      (store s array2D i (elements + offset2D size_y variable_size i))

/-- Source `malloc2D`. -/
def malloc2D (s : State) (size_x size_y : Nat) (type : VariableType) : Nat × State :=
  if isLimitReached s = true then (0, s)
  else
    let r1 := _calloc s size_x sizeof_ptr
    let array2D := r1.1
    if array2D = 0 then (0, r1.2)
    else
      let index := r1.2.arrays.counter
      let s2 := bumpCounter r1.2
      let variable_size := get_variable_size type
      let r3 := _calloc s2 ((size_x * size_y) % UINT_RANGE) variable_size
      let s4 := setElements r3.2 index r3.1
      if r3.1 = 0 then (0, free s4 array2D)
      else
        let s5 := setAddress s4 index array2D
        let elements := s5.arrays.elements index
        (array2D, malloc2D_loop size_y variable_size elements array2D size_x 0 s5)

/-- Byte offset `((i * size_y * size_z) + (j * size_z)) * variable_size` of
`malloc3D`: the parenthesised sum is computed in `unsigned int`, the final
multiplication in `size_t`. -/
def offset3D (size_y size_z variable_size i j : Nat) : Nat :=
  ((((((i * size_y) % UINT_RANGE) * size_z) % UINT_RANGE + (j * size_z) % UINT_RANGE)
      % UINT_RANGE) * variable_size) % SIZE_RANGE

/-- The inner loop `for(j = 0; j < size_y; j++) array3D[i][j] = elements + ...`
of `malloc3D`; first numeric argument: iterations left, second: `j`. -/
def malloc3D_inner (size_y size_z variable_size elements array3D i : Nat) :
    Nat → Nat → State → State
  | 0, _, s => s
  | n + 1, j, s =>
    let r := load s array3D i
    malloc3D_inner size_y size_z variable_size elements array3D i n (j + 1)
      (store r.2 r.1 j (elements + offset3D size_y size_z variable_size i j))

/-- The roll-back loop `while(i != 0) free(array3D[--i]);` of `malloc3D`,
by recursion on `i`. -/
def malloc3D_unwind (array3D : Nat) : Nat → State → State
  | 0, s => s
  | i + 1, s =>
    let r := load s array3D i
    malloc3D_unwind array3D i (free r.2 r.1)

/-- The outer loop `for(i = 0; i < size_x; i++)` of `malloc3D`, with its early
`return NULL`; first numeric argument: iterations left, second: `i`.  The
result is the value returned by `malloc3D`. -/
def malloc3D_outer (size_y size_z variable_size elements array3D index : Nat) :
    Nat → Nat → State → Nat × State
  | 0, _, s => (array3D, s)
  | n + 1, i, s =>
    let r := _calloc s size_y sizeof_ptr
    let s2 := store r.2 array3D i r.1
    if r.1 = 0 then
      let s3 := malloc3D_unwind array3D i s2
      let s4 := free s3 (s3.arrays.elements index)
      (0, free s4 array3D)
    else
      malloc3D_outer size_y size_z variable_size elements array3D index n (i + 1)
        (malloc3D_inner size_y size_z variable_size elements array3D i size_y 0 s2)

/-- Source `malloc3D`. -/
def malloc3D (s : State) (size_x size_y size_z : Nat) (type : VariableType) : Nat × State :=
  if isLimitReached s = true then (0, s)
  else
    let r1 := _calloc s size_x sizeof_ptr
    let array3D := r1.1
    if array3D = 0 then (0, r1.2)
    else
      let index := r1.2.arrays.counter
      let s2 := bumpCounter r1.2
      let variable_size := get_variable_size type
      let r3 := _calloc s2 ((((size_x * size_y) % UINT_RANGE) * size_z) % UINT_RANGE) variable_size
      let s4 := setElements r3.2 index r3.1
      if r3.1 = 0 then (0, free s4 array3D)
      else
        let s5 := setAddress s4 index array3D
        let elements := s5.arrays.elements index
        malloc3D_outer size_y size_z variable_size elements array3D index size_x 0 s5

/-- Source `free1D`; `size` is unused. -/
def free1D (s : State) (array : Nat) (_size : Nat) : State :=
  if array ≠ 0 then free s array else s

/-- The registry scan that opens both `free2D` and `free3D`:
`for(i = 0; i < arrays.counter; i++) if(_array == arrays.address[i]) { ...; break; }`;
first numeric argument: iterations left (`arrays.counter - i`), second: `i`. -/
def registry_scan (array : Nat) : Nat → Nat → State → State
  | 0, _, s => s
  | n + 1, i, s =>
    if array = s.arrays.address i then
      if s.arrays.elements i ≠ 0 then setElements (free s (s.arrays.elements i)) i 0
      else s
    else registry_scan array n (i + 1) s

/-- Source `free2D`; `size_x` and `size_y` are unused. -/
def free2D (s : State) (array : Nat) (_size_x _size_y : Nat) : State :=
  let s1 := registry_scan array s.arrays.counter 0 s
  if array ≠ 0 then free s1 array else s1

/-- The loop `for(i = 0; i < size_x; i++) if(_array[i] != NULL) { free(_array[i]);
_array[i] = NULL; }` of `free3D`; first numeric argument: iterations left,
second: `i`. -/
def free3D_loop (array : Nat) : Nat → Nat → State → State
  | 0, _, s => s
  | n + 1, i, s =>
    let r := load s array i
    if r.1 ≠ 0 then free3D_loop array n (i + 1) (store (free r.2 r.1) array i 0)
    else free3D_loop array n (i + 1) r.2

/-- Source `free3D`; `size_y` and `size_z` are unused. -/
def free3D (s : State) (array : Nat) (size_x _size_y _size_z : Nat) : State :=
  let s1 := registry_scan array s.arrays.counter 0 s
  let s2 := free3D_loop array size_x 0 s1
  if array ≠ 0 then free s2 array else s2

/-- A state reached from program start by allocating a 1x1 `INT` array with
`malloc2D` (handle `1000`, flat buffer `2000`) and releasing it with `free2D`;
the allocator will hand out the two released addresses again. -/
def State.afterRoundTrip : State :=
  free2D (malloc2D (State.init [1000, 2000, 1000, 2000]) 1 1 VariableType.INT).2 1000 1 1

/-- A state reached from program start by one failed call
`malloc3D(1, 1, 1000, INT)`: the allocator granted the outer level (`1000`) and
the flat buffer (`2000`) and refused the second-level index, so the call rolled
back and returned `NULL`; the allocator will hand out `1000` again, then `3000`. -/
def State.afterFailedBuild : State :=
  (malloc3D (State.init [1000, 2000, 0, 1000, 3000]) 1 1 1000 VariableType.INT).2

/-- Address to which the caller's subscript `handle[i][j]` resolves for a 2-D
handle over elements of `w` bytes: the content of slot `i` plus `j` elements. -/
def subscript2D (s : State) (handle i j w : Nat) : Nat :=
  (s.heap handle).cells i + j * w

/-- Address to which the caller's subscript `handle[i][j][k]` resolves for a 3-D
handle over elements of `w` bytes. -/
def subscript3D (s : State) (handle i j k w : Nat) : Nat :=
  (s.heap ((s.heap handle).cells i)).cells j + k * w

/-! ## Closed forms of the states built, and predicates used in the statements -/

/-- The state in which a successful `malloc2D` call ends, in closed form: `A`
is the outer index level, `F` the flat buffer, `rest` the answers left. -/
def built2D (s : State) (size_x size_y w A F : Nat) (rest : List Nat) : State :=
  { arrays :=
      { elements := Function.update s.arrays.elements s.arrays.counter F
        address := Function.update s.arrays.address s.arrays.counter A
        total_size :=
          ((s.arrays.total_size + (size_x * sizeof_ptr) % SIZE_RANGE) % SIZE_RANGE +
            (((size_x * size_y) % UINT_RANGE) * w) % SIZE_RANGE) % SIZE_RANGE
        counter := (s.arrays.counter + 1) % UINT_RANGE }
    heap := Function.update
      (Function.update s.heap F ⟨true, (size_x * size_y) % UINT_RANGE, w, fun _ => 0⟩) A
      ⟨true, size_x, sizeof_ptr, fun k => if k < size_x then F + offset2D size_y w k else 0⟩
    oracle := rest
    trace := s.trace ++ [Event.calloc size_x sizeof_ptr A,
      Event.calloc ((size_x * size_y) % UINT_RANGE) w F]
    ub := s.ub }

/-- A state whose registry cursor stands at `n`, everything else as at program
start. -/
def State.withCounter (n : Nat) (o : List Nat) : State :=
  { State.init o with arrays := ⟨fun _ => 0, fun _ => 0, 0, n⟩ }

/-- The state after one granted iteration of the outer loop of `malloc3D`, in
closed form: the second-level index `a` was obtained for slot `i` of `A` and
filled with the leaf addresses of row `i`. -/
def rowStep (size_y size_z w e A i a : Nat) (s : State) : State :=
  { arrays := (addTotal s size_y sizeof_ptr).arrays
    heap := Function.update
      (Function.update s.heap A { s.heap A with cells := Function.update (s.heap A).cells i a })
      a ⟨true, size_y, sizeof_ptr,
          fun k => if k < size_y then e + offset3D size_y size_z w i k else 0⟩
    oracle := s.oracle.tail
    trace := s.trace ++ [Event.calloc size_y sizeof_ptr a]
    ub := s.ub }

/-- The state after the outer loop of `malloc3D` was granted the second-level
indexes `rows` for the slots `i, i + 1, ...` of `A`. -/
def rowsState (size_y size_z w e A : Nat) : List Nat → Nat → State → State
  | [], _, s => s
  | a :: rows, i, s => rowsState size_y size_z w e A rows (i + 1) (rowStep size_y size_z w e A i a s)

/-- The state in which the outer loop of `malloc3D` starts, in closed form:
`A` is the outer index level (still zeroed), `F` the flat buffer of `P`
elements of width `w`, both registered in slot `arrays.counter`. -/
def prebuilt (s : State) (size_x P w A F : Nat) : State :=
  { arrays :=
      { elements := Function.update s.arrays.elements s.arrays.counter F
        address := Function.update s.arrays.address s.arrays.counter A
        total_size :=
          ((s.arrays.total_size + (size_x * sizeof_ptr) % SIZE_RANGE) % SIZE_RANGE +
            (P * w) % SIZE_RANGE) % SIZE_RANGE
        counter := (s.arrays.counter + 1) % UINT_RANGE }
    heap := Function.update (Function.update s.heap A ⟨true, size_x, sizeof_ptr, fun _ => 0⟩) F
      ⟨true, P, w, fun _ => 0⟩
    oracle := s.oracle.tail.tail
    trace := s.trace ++ [Event.calloc size_x sizeof_ptr A, Event.calloc P w F]
    ub := s.ub }

/-- Number of elements `size_x * size_y * size_z` of the flat buffer as
`malloc3D` computes it, in `unsigned int`. -/
def flatCount3D (size_x size_y size_z : Nat) : Nat :=
  (((size_x * size_y) % UINT_RANGE) * size_z) % UINT_RANGE

/-- The allocator grants the requests of one `malloc3D` call: the answers `A`
(outer level), `F` (flat buffer) and `rows` (second-level indexes) are non-null,
pairwise distinct and name no block that is live in `s`. -/
def Granted (s : State) (A F : Nat) (rows : List Nat) : Prop :=
  A ≠ 0 ∧ F ≠ 0 ∧ A ≠ F ∧ (s.heap A).live = false ∧ (s.heap F).live = false ∧
    (∀ a ∈ rows, a ≠ 0 ∧ a ≠ A ∧ a ≠ F ∧ (s.heap a).live = false) ∧ rows.Nodup

/-- The state in which a successful `malloc3D` call ends, in closed form. -/
def built3D (s : State) (size_x size_y size_z w A F : Nat) (rows : List Nat) : State :=
  rowsState size_y size_z w F A rows 0
    (prebuilt s size_x (flatCount3D size_x size_y size_z) w A F)

/-- The registry proper (both tables and the cursor) is the same in `s` and `t`;
the running byte total is not part of it. -/
def sameRegistry (s t : State) : Prop :=
  t.arrays.elements = s.arrays.elements ∧ t.arrays.address = s.arrays.address ∧
    t.arrays.counter = s.arrays.counter

/-- The allocator refuses its next request: its answers are exhausted, or the
next answer `p` is `NULL` or names a block that is live, either since before the
call (live in `s`) or handed out during the call (`granted`). -/
def Refusal (s : State) (granted : List Nat) : List Nat → Prop
  | [] => True
  | p :: _ => p = 0 ∨ p ∈ granted ∨ (s.heap p).live = true

/-- No slot below the cursor that carries the handle identity `A` holds a
dangling buffer reference: its buffer reference is null or names a live block.
This holds in particular when the registry holds no dangling reference at all,
and when no slot below the cursor carries `A`. -/
def NoDanglingFor (s : State) (A : Nat) : Prop :=
  ∀ k, k < s.arrays.counter → s.arrays.address k = A →
    s.arrays.elements k = 0 ∨ (s.heap (s.arrays.elements k)).live = true

/-! ## Executions: sequences of calls of the public functions -/

/-- One call of a public function of `memory_management.h`, with its arguments. -/
inductive Op where
  | malloc1D (size : Nat) (type : VariableType)
  | malloc2D (size_x size_y : Nat) (type : VariableType)
  | malloc3D (size_x size_y size_z : Nat) (type : VariableType)
  | free1D (array size : Nat)
  | free2D (array size_x size_y : Nat)
  | free3D (array size_x size_y size_z : Nat)

/-- Effect of one call: the value it returns (`0` for the `void` functions) and
the state it leaves. -/
def Op.apply (s : State) : Op → Nat × State
  | Op.malloc1D size type => MemoryManagement.malloc1D s size type
  | Op.malloc2D size_x size_y type => MemoryManagement.malloc2D s size_x size_y type
  | Op.malloc3D size_x size_y size_z type =>
    MemoryManagement.malloc3D s size_x size_y size_z type
  | Op.free1D array size => (0, MemoryManagement.free1D s array size)
  | Op.free2D array size_x size_y => (0, MemoryManagement.free2D s array size_x size_y)
  | Op.free3D array size_x size_y size_z =>
    (0, MemoryManagement.free3D s array size_x size_y size_z)

/-- The call is a `malloc2D` or a `malloc3D`. -/
def Op.isBuild : Op → Bool
  | Op.malloc2D _ _ _ => true
  | Op.malloc3D _ _ _ _ => true
  | _ => false

/-- State after a sequence of calls made from `s`, in order. -/
def run (s : State) : List Op → State
  | [] => s
  | op :: ops => run (op.apply s).2 ops

/-- Number of calls of `malloc2D` / `malloc3D` in the sequence, made from `s`,
that succeed (return a non-null handle). -/
def successes (s : State) : List Op → Nat
  | [] => 0
  | op :: ops =>
    (if op.isBuild = true ∧ (op.apply s).1 ≠ 0 then 1 else 0) + successes (op.apply s).2 ops

/-- A sequence of 300 calls: 150 times `malloc2D(1, 1, INT)` immediately followed
by `free2D` of the handle it returns when the allocator answers `1, 2, 3, ...`. -/
def exhaustingCalls : List Op :=
  (List.range 150).flatMap
    (fun k => [Op.malloc2D 1 1 VariableType.INT, Op.free2D (2 * k + 1) 1 1])

/-- A state reached from program start by one failed call
`malloc3D(2, 1, 1000, INT)`: the allocator granted the outer level (`1000`), the
flat buffer (`2000`) and the second-level index of slot 0 (`3000`) and refused
the one of slot 1, so the call rolled back and returned `NULL`; the allocator
will hand out `1000` and `3000` again. -/
def State.afterRollback : State :=
  (malloc3D (State.init [1000, 2000, 3000, 0, 1000, 3000]) 2 1 1000 VariableType.INT).2

/-- Three allocations of a 1x1 `INT` array, the first two released with `free2D`
on the handle `1000` that `malloc2D` returns when the allocator keeps handing
out the address `1000` for the outer level. -/
def reuseCalls : List Op :=
  [Op.malloc2D 1 1 VariableType.INT, Op.free2D 1000 1 1,
    Op.malloc2D 1 1 VariableType.INT, Op.free2D 1000 1 1,
    Op.malloc2D 1 1 VariableType.INT]

/-! ## The allocator primitives -/

theorem get_variable_size_le (type : VariableType) : get_variable_size type ≤ 8 := by
  cases type <;> decide

theorem calloc_fail (s : State) (nmemb size : Nat) (h : (calloc s nmemb size).1 = 0) :
    (calloc s nmemb size).2 =
      { s with oracle := s.oracle.tail, trace := s.trace ++ [Event.calloc nmemb size 0] } := by
  unfold calloc at h ⊢
  cases ho : s.oracle with
  | nil => simp
  | cons p rest =>
    simp only [ho] at h ⊢
    split
    · simp
    · rename_i hp
      rw [if_neg hp] at h
      simp only [not_or] at hp
      exact absurd h hp.1

theorem calloc_succ (s : State) (nmemb size : Nat) (h : (calloc s nmemb size).1 ≠ 0) :
    s.oracle = (calloc s nmemb size).1 :: s.oracle.tail ∧
    (s.heap (calloc s nmemb size).1).live = false ∧
    (calloc s nmemb size).2 =
      { s with
          oracle := s.oracle.tail
          heap := Function.update s.heap (calloc s nmemb size).1 ⟨true, nmemb, size, fun _ => 0⟩
          trace := s.trace ++ [Event.calloc nmemb size (calloc s nmemb size).1] } := by
  unfold calloc at h ⊢
  cases ho : s.oracle with
  | nil => simp [ho] at h
  | cons p rest =>
    simp only [ho] at h ⊢
    by_cases hp : p = 0 ∨ (s.heap p).live = true
    · simp [if_pos hp] at h
    · rw [if_neg hp]
      simp only [not_or, Bool.not_eq_true] at hp
      simp [hp.2]

theorem calloc_grant (s : State) (nmemb size p : Nat) (rest : List Nat)
    (ho : s.oracle = p :: rest) (hp : p ≠ 0) (hl : (s.heap p).live = false) :
    calloc s nmemb size =
      (p, { s with
              oracle := rest
              heap := Function.update s.heap p ⟨true, nmemb, size, fun _ => 0⟩
              trace := s.trace ++ [Event.calloc nmemb size p] }) := by
  unfold calloc
  simp [ho, hp, hl]

theorem store_valid (s : State) (p i v : Nat) (h : validCell s p i = true) :
    store s p i v =
      { s with heap := Function.update s.heap p
                  { s.heap p with cells := Function.update (s.heap p).cells i v } } := by
  unfold store
  rw [if_pos h]

theorem load_valid (s : State) (p i : Nat) (h : validCell s p i = true) :
    load s p i = ((s.heap p).cells i, s) := by
  unfold load
  rw [if_pos h]

theorem validCell_iff (s : State) (p i : Nat) :
    validCell s p i = true ↔
      p ≠ 0 ∧ (s.heap p).live = true ∧ (s.heap p).size = sizeof_ptr ∧ i < (s.heap p).nmemb := by
  unfold validCell
  simp [and_assoc]

/-! ## The 2-D builder -/

theorem malloc2D_loop_eq (size_y w e A : Nat) :
    ∀ (n i : Nat) (s : State), A ≠ 0 → (s.heap A).live = true →
      (s.heap A).size = sizeof_ptr → i + n ≤ (s.heap A).nmemb →
      malloc2D_loop size_y w e A n i s =
        { s with heap := Function.update s.heap A
                    { s.heap A with cells := fun k =>
                        if i ≤ k ∧ k < i + n then e + offset2D size_y w k
                        else (s.heap A).cells k } } := by
  intro n
  induction n with
  | zero =>
    intro i s _ _ _ _
    have hc : (fun k => if i ≤ k ∧ k < i + 0 then e + offset2D size_y w k
        else (s.heap A).cells k) = (s.heap A).cells := by
      funext k
      rw [if_neg (by omega)]
    rw [hc]
    simp [malloc2D_loop]
  | succ n ih =>
    intro i s hA hl hs hn
    have hv : validCell s A i = true := by
      rw [validCell_iff]
      exact ⟨hA, hl, hs, by omega⟩
    rw [malloc2D_loop, store_valid s A i _ hv]
    rw [ih (i + 1) _ hA (by simp [hl]) (by simp [hs]) (by simp; omega)]
    simp only [Function.update_same, Function.update_idem]
    have hc : (fun k => if i + 1 ≤ k ∧ k < i + 1 + n then e + offset2D size_y w k
        else Function.update (s.heap A).cells i (e + offset2D size_y w i) k) =
        (fun k => if i ≤ k ∧ k < i + (n + 1) then e + offset2D size_y w k
        else (s.heap A).cells k) := by
      funext k
      by_cases hk : k = i
      · subst hk
        rw [if_neg (by omega), if_pos (by omega), Function.update_same]
      · rw [Function.update_noteq hk]
        by_cases h1 : i + 1 ≤ k ∧ k < i + 1 + n
        · rw [if_pos h1, if_pos (by omega)]
        · rw [if_neg h1, if_neg (by omega)]
    rw [hc]

theorem _calloc_grant (s : State) (nmemb size p : Nat) (rest : List Nat)
    (ho : s.oracle = p :: rest) (hp : p ≠ 0) (hl : (s.heap p).live = false) :
    _calloc s nmemb size =
      (p, { addTotal s nmemb size with
              oracle := rest
              heap := Function.update s.heap p ⟨true, nmemb, size, fun _ => 0⟩
              trace := s.trace ++ [Event.calloc nmemb size p] }) := by
  unfold _calloc
  rw [calloc_grant (addTotal s nmemb size) nmemb size p rest ho hp hl]
  rfl

theorem _calloc_succ (s : State) (nmemb size : Nat) (h : (_calloc s nmemb size).1 ≠ 0) :
    s.oracle = (_calloc s nmemb size).1 :: s.oracle.tail ∧
    (s.heap (_calloc s nmemb size).1).live = false := by
  have h1 := calloc_succ (addTotal s nmemb size) nmemb size h
  exact ⟨h1.1, h1.2.1⟩

theorem _calloc_fail (s : State) (nmemb size : Nat) (h : (_calloc s nmemb size).1 = 0) :
    (_calloc s nmemb size).2 =
      { addTotal s nmemb size with
          oracle := s.oracle.tail, trace := s.trace ++ [Event.calloc nmemb size 0] } := by
  exact calloc_fail (addTotal s nmemb size) nmemb size h

theorem malloc2D_grant (s : State) (size_x size_y : Nat) (type : VariableType)
    (A F : Nat) (rest : List Nat) (hlim : s.arrays.counter < MAX_NUMBER_OF_ALLOCATED_ARRAYS)
    (ho : s.oracle = A :: F :: rest) (hA : A ≠ 0) (hF : F ≠ 0) (hAF : A ≠ F)
    (hlA : (s.heap A).live = false) (hlF : (s.heap F).live = false) :
    malloc2D s size_x size_y type =
      (A, built2D s size_x size_y (get_variable_size type) A F rest) := by
  have hfull : isLimitReached s = false := by
    unfold isLimitReached
    simp only [decide_eq_false_iff_not]
    omega
  have e1 := _calloc_grant s size_x sizeof_ptr A (F :: rest) ho hA hlA
  unfold malloc2D
  simp only [hfull, e1]
  have e3 := _calloc_grant
    (bumpCounter { addTotal s size_x sizeof_ptr with
              oracle := F :: rest
              heap := Function.update s.heap A ⟨true, size_x, sizeof_ptr, fun _ => 0⟩
              trace := s.trace ++ [Event.calloc size_x sizeof_ptr A] })
    ((size_x * size_y) % UINT_RANGE) (get_variable_size type) F rest rfl hF
    (by simp [bumpCounter, Function.update_noteq (Ne.symm hAF), hlF])
  simp only [e3, hA, hF, if_false, Bool.false_eq_true]
  rw [malloc2D_loop_eq _ _ _ _ _ _ _ hA
    (by simp [setAddress, setElements, bumpCounter, addTotal, Function.update_noteq hAF])
    (by simp [setAddress, setElements, bumpCounter, addTotal, Function.update_noteq hAF])
    (by simp [setAddress, setElements, bumpCounter, addTotal, Function.update_noteq hAF])]
  simp only [built2D, setAddress, setElements, bumpCounter, addTotal, Function.update_same,
    Function.update_noteq hAF, Nat.zero_add, Nat.zero_le, true_and]
  rw [Function.update_comm hAF, Function.update_idem]
  simp [List.append_assoc]

theorem isLimitReached_false (s : State) :
    isLimitReached s = false ↔ s.arrays.counter < MAX_NUMBER_OF_ALLOCATED_ARRAYS := by
  unfold isLimitReached
  simp

theorem malloc2D_success (s : State) (size_x size_y : Nat) (type : VariableType)
    (h : (malloc2D s size_x size_y type).1 ≠ 0) :
    ∃ A F rest, s.arrays.counter < MAX_NUMBER_OF_ALLOCATED_ARRAYS ∧
      s.oracle = A :: F :: rest ∧ A ≠ 0 ∧ F ≠ 0 ∧ A ≠ F ∧
      (s.heap A).live = false ∧ (s.heap F).live = false := by
  unfold malloc2D at h
  by_cases hfull : isLimitReached s = true
  · simp [hfull] at h
  · simp only [hfull, if_false, Bool.false_eq_true] at h
    by_cases h1 : (_calloc s size_x sizeof_ptr).1 = 0
    · simp [h1] at h
    · obtain ⟨ho1, hl1⟩ := _calloc_succ s size_x sizeof_ptr h1
      generalize hAdef : (_calloc s size_x sizeof_ptr).1 = A at ho1 hl1 h1 h
      have e1 := _calloc_grant s size_x sizeof_ptr A s.oracle.tail ho1 h1 hl1
      have e1s : (_calloc s size_x sizeof_ptr).2 = _ := congrArg Prod.snd e1
      simp only [h1, if_false, e1s] at h
      by_cases h3 : (_calloc
          (bumpCounter { addTotal s size_x sizeof_ptr with
              oracle := s.oracle.tail
              heap := Function.update s.heap A ⟨true, size_x, sizeof_ptr, fun _ => 0⟩
              trace := s.trace ++ [Event.calloc size_x sizeof_ptr A] })
          ((size_x * size_y) % UINT_RANGE) (get_variable_size type)).1 = 0
      · simp [h3] at h
      · obtain ⟨ho3, hl3⟩ := _calloc_succ _ _ _ h3
        generalize (_calloc
          (bumpCounter { addTotal s size_x sizeof_ptr with
              oracle := s.oracle.tail
              heap := Function.update s.heap A ⟨true, size_x, sizeof_ptr, fun _ => 0⟩
              trace := s.trace ++ [Event.calloc size_x sizeof_ptr A] })
          ((size_x * size_y) % UINT_RANGE) (get_variable_size type)).1 = F at ho3 hl3 h3
        simp only [bumpCounter] at ho3 hl3
        have hAF : A ≠ F := by
          intro hAF
          subst hAF
          simp at hl3
        rw [Function.update_noteq (Ne.symm hAF)] at hl3
        refine ⟨A, F, s.oracle.tail.tail, ?_, ?_, h1, h3, hAF, hl1, hl3⟩
        · exact (isLimitReached_false s).1 (by simpa using hfull)
        · rw [ho1]
          simp only [List.tail_cons]
          rw [← ho3]

theorem offset2D_exact (size_x size_y w i : Nat) (hfit : size_x * size_y < UINT_RANGE)
    (hw : w ≤ 8) (hi : i < size_x) : offset2D size_y w i = i * size_y * w := by
  have h1 : i * size_y ≤ size_x * size_y := Nat.mul_le_mul_right _ (Nat.le_of_lt hi)
  have h2 : i * size_y * w ≤ i * size_y * 8 := Nat.mul_le_mul_left _ hw
  unfold offset2D
  unfold UINT_RANGE at hfit ⊢
  unfold SIZE_RANGE
  rw [Nat.mod_eq_of_lt (show i * size_y < 2 ^ 32 by omega)]
  rw [Nat.mod_eq_of_lt (by omega)]

/-- C1. Whenever `malloc2D` succeeds on extents whose product fits in an
`unsigned int`, with `b` the flat-buffer base it registered (the value returned by
its second allocator request, of `size_x * size_y` elements of the type's width
`w`): slot `i` of the returned handle holds `b + i * size_y * w` for every
`i < size_x`, and element `(i, j)` with `j < size_y` resolves to byte offset
`(i * size_y + j) * w` from `b`; for a 3x4 array of 4-byte elements, element
`(2, 1)` resolves to offset 36. -/
theorem malloc2D_row_major (s : State) (size_x size_y : Nat) (type : VariableType)
    (hfit : size_x * size_y < UINT_RANGE)
    (hok : (malloc2D s size_x size_y type).1 ≠ 0) :
    (malloc2D s size_x size_y type).2.trace =
        s.trace ++ [Event.calloc size_x sizeof_ptr (malloc2D s size_x size_y type).1,
          Event.calloc (size_x * size_y) (get_variable_size type)
            ((malloc2D s size_x size_y type).2.arrays.elements s.arrays.counter)] ∧
      (∀ i, i < size_x →
        validCell (malloc2D s size_x size_y type).2 (malloc2D s size_x size_y type).1 i = true ∧
        ((malloc2D s size_x size_y type).2.heap (malloc2D s size_x size_y type).1).cells i =
          (malloc2D s size_x size_y type).2.arrays.elements s.arrays.counter +
            i * size_y * get_variable_size type ∧
        ∀ j, j < size_y →
          subscript2D (malloc2D s size_x size_y type).2 (malloc2D s size_x size_y type).1 i j
              (get_variable_size type) =
            (malloc2D s size_x size_y type).2.arrays.elements s.arrays.counter +
              (i * size_y + j) * get_variable_size type) ∧
      (size_x = 3 → size_y = 4 → get_variable_size type = 4 →
        subscript2D (malloc2D s size_x size_y type).2 (malloc2D s size_x size_y type).1 2 1 4 =
          (malloc2D s size_x size_y type).2.arrays.elements s.arrays.counter + 36) := by
  obtain ⟨A, F, rest, hlim, ho, hA, hF, hAF, hlA, hlF⟩ := malloc2D_success s size_x size_y type hok
  rw [malloc2D_grant s size_x size_y type A F rest hlim ho hA hF hAF hlA hlF]
  have hw := get_variable_size_le type
  have hcell : ∀ i, i < size_x →
      ((built2D s size_x size_y (get_variable_size type) A F rest).heap A).cells i =
        F + i * size_y * get_variable_size type := by
    intro i hi
    simp only [built2D, Function.update_same, if_pos hi]
    rw [offset2D_exact size_x size_y _ i hfit hw hi]
  have helem : (built2D s size_x size_y (get_variable_size type) A F rest).arrays.elements
      s.arrays.counter = F := by
    simp [built2D]
  refine ⟨?_, ?_, ?_⟩
  · simp only [helem]
    simp only [built2D]
    rw [Nat.mod_eq_of_lt hfit]
  · intro i hi
    refine ⟨?_, ?_, ?_⟩
    · rw [validCell_iff]
      simp only [built2D, Function.update_same]
      exact ⟨hA, trivial, trivial, hi⟩
    · rw [helem]
      exact hcell i hi
    · intro j _
      unfold subscript2D
      rw [helem, hcell i hi]
      ring
  · intro hx hy hw4
    unfold subscript2D
    rw [helem, hcell 2 (by omega), hy, hw4]

/-- Witness for C1: a 3x4 `INT` array built at program start, with the allocator
answering `1000` then `2000`. -/
theorem malloc2D_row_major_witness :
    3 * 4 < UINT_RANGE ∧
    (malloc2D (State.init [1000, 2000]) 3 4 VariableType.INT).1 ≠ 0 ∧
    subscript2D (malloc2D (State.init [1000, 2000]) 3 4 VariableType.INT).2
        (malloc2D (State.init [1000, 2000]) 3 4 VariableType.INT).1 2 1 4 =
      (malloc2D (State.init [1000, 2000]) 3 4 VariableType.INT).2.arrays.elements
        (State.init [1000, 2000]).arrays.counter + 36 :=
  ⟨by decide, by decide,
    (malloc2D_row_major (State.init [1000, 2000]) 3 4 VariableType.INT (by decide)
      (by decide)).2.2 rfl rfl rfl⟩

/-! ## Registry capacity -/

/-- C3. When the registry counter equals the capacity
`MAX_NUMBER_OF_ALLOCATED_ARRAYS` (150), `malloc2D` and `malloc3D` return `NULL`
for all extents and types and leave the whole state as it was: heap, registry
tables, counter and running byte total are unchanged, and the allocator was
not called (no answer consumed, no call recorded). -/
theorem malloc_registry_full (s : State) (size_x size_y size_z : Nat) (type : VariableType)
    (hfull : s.arrays.counter = MAX_NUMBER_OF_ALLOCATED_ARRAYS) :
    MAX_NUMBER_OF_ALLOCATED_ARRAYS = 150 ∧
    malloc2D s size_x size_y type = (0, s) ∧
    malloc3D s size_x size_y size_z type = (0, s) := by
  have h : isLimitReached s = true := by
    unfold isLimitReached
    simp [hfull]
  refine ⟨rfl, ?_, ?_⟩
  · unfold malloc2D
    rw [if_pos h]
  · unfold malloc3D
    rw [if_pos h]

/-- Witness for C3: the cursor at 150, a 3x4 resp. 2x3x4 `INT` request. -/
theorem malloc_registry_full_witness :
    (State.withCounter 150 [1000, 2000]).arrays.counter = MAX_NUMBER_OF_ALLOCATED_ARRAYS ∧
    malloc2D (State.withCounter 150 [1000, 2000]) 3 4 VariableType.INT =
      (0, State.withCounter 150 [1000, 2000]) :=
  ⟨by decide,
    (malloc_registry_full (State.withCounter 150 [1000, 2000]) 3 4 2 VariableType.INT
      (by decide)).2.1⟩

/-! ## The 3-D builder -/

theorem malloc3D_inner_eq (size_y size_z w e A i row : Nat) :
    ∀ (n j : Nat) (s : State), validCell s A i = true → (s.heap A).cells i = row →
      row ≠ A → row ≠ 0 → (s.heap row).live = true → (s.heap row).size = sizeof_ptr →
      j + n ≤ (s.heap row).nmemb →
      malloc3D_inner size_y size_z w e A i n j s =
        { s with heap := Function.update s.heap row
                    { s.heap row with cells := fun k =>
                        if j ≤ k ∧ k < j + n then e + offset3D size_y size_z w i k
                        else (s.heap row).cells k } } := by
  intro n
  induction n with
  | zero =>
    intro j s _ _ _ _ _ _ _
    have hc : (fun k => if j ≤ k ∧ k < j + 0 then e + offset3D size_y size_z w i k
        else (s.heap row).cells k) = (s.heap row).cells := by
      funext k
      rw [if_neg (by omega)]
    rw [hc]
    simp [malloc3D_inner]
  | succ n ih =>
    intro j s hvA hrow hne h0 hl hs hn
    have hv : validCell s row j = true := by
      rw [validCell_iff]
      exact ⟨h0, hl, hs, by omega⟩
    rw [malloc3D_inner, load_valid s A i hvA]
    simp only [hrow]
    rw [store_valid s row j _ hv]
    have hvA2 := (validCell_iff s A i).1 hvA
    rw [ih (j + 1) _
      (by rw [validCell_iff]; simpa [Function.update_noteq (Ne.symm hne)] using hvA2)
      (by simp [Function.update_noteq (Ne.symm hne), hrow]) hne h0 (by simp [hl])
      (by simp [hs]) (by simp; omega)]
    simp only [Function.update_same, Function.update_idem]
    have hc : (fun k => if j + 1 ≤ k ∧ k < j + 1 + n then e + offset3D size_y size_z w i k
        else Function.update (s.heap row).cells j (e + offset3D size_y size_z w i j) k) =
        (fun k => if j ≤ k ∧ k < j + (n + 1) then e + offset3D size_y size_z w i k
        else (s.heap row).cells k) := by
      funext k
      by_cases hk : k = j
      · subst hk
        rw [if_neg (by omega), if_pos (by omega), Function.update_same]
      · rw [Function.update_noteq hk]
        by_cases h1 : j + 1 ≤ k ∧ k < j + 1 + n
        · rw [if_pos h1, if_pos (by omega)]
        · rw [if_neg h1, if_neg (by omega)]
    rw [hc]

theorem malloc3D_row_granted (size_y size_z w e A i a : Nat) (s : State)
    (ho : s.oracle = a :: s.oracle.tail) (ha : a ≠ 0) (hla : (s.heap a).live = false)
    (hvA : validCell s A i = true) :
    (_calloc s size_y sizeof_ptr).1 = a ∧
    malloc3D_inner size_y size_z w e A i size_y 0
        (store (_calloc s size_y sizeof_ptr).2 A i a) =
      rowStep size_y size_z w e A i a s := by
  have hvA2 := (validCell_iff s A i).1 hvA
  have hAa : A ≠ a := by
    intro h
    subst h
    rw [hvA2.2.1] at hla
    exact Bool.noConfusion hla
  have e1 := _calloc_grant s size_y sizeof_ptr a s.oracle.tail ho ha hla
  refine ⟨by rw [e1], ?_⟩
  rw [e1]
  simp only
  have hv1 : validCell { addTotal s size_y sizeof_ptr with
              oracle := s.oracle.tail
              heap := Function.update s.heap a ⟨true, size_y, sizeof_ptr, fun _ => 0⟩
              trace := s.trace ++ [Event.calloc size_y sizeof_ptr a] } A i = true := by
    rw [validCell_iff]
    simpa [Function.update_noteq hAa] using hvA2
  rw [store_valid _ A i a hv1]
  rw [malloc3D_inner_eq size_y size_z w e A i a size_y 0 _
    (by rw [validCell_iff]; simpa [Function.update_noteq hAa] using hvA2)
    (by simp) (Ne.symm hAa) ha
    (by simp [Function.update_noteq (Ne.symm hAa)])
    (by simp [Function.update_noteq (Ne.symm hAa)])
    (by simp [Function.update_noteq (Ne.symm hAa)])]
  simp only [rowStep, addTotal, Function.update_same, Function.update_noteq hAa,
    Function.update_noteq (Ne.symm hAa), Function.update_idem, Nat.zero_add, Nat.zero_le,
    true_and]
  rw [Function.update_comm (Ne.symm hAa)]
  simp only [Function.update_idem]

theorem rowStep_heap_other (size_y size_z w e A i a p : Nat) (s : State)
    (hpa : p ≠ a) (hpA : p ≠ A) : (rowStep size_y size_z w e A i a s).heap p = s.heap p := by
  simp [rowStep, Function.update_noteq hpa, Function.update_noteq hpA]

theorem rowStep_heap_A (size_y size_z w e A i a : Nat) (s : State) (hAa : A ≠ a) :
    (rowStep size_y size_z w e A i a s).heap A =
      { s.heap A with cells := Function.update (s.heap A).cells i a } := by
  simp [rowStep, Function.update_noteq hAa]

theorem malloc3D_outer_granted (size_y size_z w e A index k : Nat) :
    ∀ (rows : List Nat) (i : Nat) (s : State) (rest : List Nat),
      s.oracle = rows ++ rest → (∀ a ∈ rows, a ≠ 0 ∧ (s.heap a).live = false) → rows.Nodup →
      A ≠ 0 → (s.heap A).live = true → (s.heap A).size = sizeof_ptr →
      i + rows.length ≤ (s.heap A).nmemb →
      malloc3D_outer size_y size_z w e A index (rows.length + k) i s =
        malloc3D_outer size_y size_z w e A index k (i + rows.length)
          (rowsState size_y size_z w e A rows i s) := by
  intro rows
  induction rows with
  | nil =>
    intro i s rest _ _ _ _ _ _ _
    simp [rowsState]
  | cons a rows ih =>
    intro i s rest ho hg hnd hA hl hs hn
    have ha := hg a (List.mem_cons_self a rows)
    have hAa : A ≠ a := by
      intro h
      subst h
      rw [hl] at ha
      exact Bool.noConfusion ha.2
    have hot : s.oracle.tail = rows ++ rest := by simp [ho]
    have hvA : validCell s A i = true := by
      rw [validCell_iff]
      exact ⟨hA, hl, hs, by simp at hn; omega⟩
    obtain ⟨h1, h2⟩ := malloc3D_row_granted size_y size_z w e A i a s
      (by rw [hot, ho]; rfl) ha.1 ha.2 hvA
    have hlen : (a :: rows).length + k = (rows.length + k) + 1 := by
      simp only [List.length_cons]
      omega
    have hidx : i + (a :: rows).length = i + 1 + rows.length := by
      simp only [List.length_cons]
      omega
    rw [hlen, hidx]
    simp only [malloc3D_outer, h1, if_neg ha.1, h2, rowsState]
    have hnd2 := List.nodup_cons.1 hnd
    apply ih (i + 1) _ rest
    · simp [rowStep, hot]
    · intro b hb
      have hb2 := hg b (List.mem_cons_of_mem a hb)
      have hba : b ≠ a := by
        intro h
        subst h
        exact hnd2.1 hb
      have hbA : b ≠ A := by
        intro h
        subst h
        rw [hl] at hb2
        exact Bool.noConfusion hb2.2
      rw [rowStep_heap_other _ _ _ _ _ _ _ _ _ hba hbA]
      exact hb2
    · exact hnd2.2
    · exact hA
    · rw [rowStep_heap_A _ _ _ _ _ _ _ _ hAa]
      exact hl
    · rw [rowStep_heap_A _ _ _ _ _ _ _ _ hAa]
      exact hs
    · rw [rowStep_heap_A _ _ _ _ _ _ _ _ hAa]
      simp only [List.length_cons] at hn
      simp only
      omega

/-! Properties of the state built by the granted iterations. -/

theorem rowsState_elements (size_y size_z w e A : Nat) :
    ∀ (rows : List Nat) (i : Nat) (s : State),
      (rowsState size_y size_z w e A rows i s).arrays.elements = s.arrays.elements ∧
      (rowsState size_y size_z w e A rows i s).arrays.address = s.arrays.address ∧
      (rowsState size_y size_z w e A rows i s).arrays.counter = s.arrays.counter ∧
      (rowsState size_y size_z w e A rows i s).ub = s.ub ∧
      (rowsState size_y size_z w e A rows i s).oracle = s.oracle.drop rows.length ∧
      (rowsState size_y size_z w e A rows i s).trace =
        s.trace ++ rows.map (fun a => Event.calloc size_y sizeof_ptr a) := by
  intro rows
  induction rows with
  | nil =>
    intro i s
    simp [rowsState]
  | cons a rows ih =>
    intro i s
    obtain ⟨h1, h2, h3, h4, h5, h6⟩ := ih (i + 1) (rowStep size_y size_z w e A i a s)
    simp only [rowsState]
    rw [h1, h2, h3, h4, h5, h6]
    simp [rowStep, addTotal]

theorem rowsState_heap_other (size_y size_z w e A p : Nat) :
    ∀ (rows : List Nat) (i : Nat) (s : State), p ∉ rows → p ≠ A →
      (rowsState size_y size_z w e A rows i s).heap p = s.heap p := by
  intro rows
  induction rows with
  | nil =>
    intro i s _ _
    rfl
  | cons a rows ih =>
    intro i s hp hpA
    simp only [List.mem_cons, not_or] at hp
    simp only [rowsState]
    rw [ih (i + 1) _ hp.2 hpA, rowStep_heap_other _ _ _ _ _ _ _ _ _ hp.1 hpA]

theorem rowsState_heap_A (size_y size_z w e A : Nat) :
    ∀ (rows : List Nat) (i : Nat) (s : State), A ∉ rows →
      (rowsState size_y size_z w e A rows i s).heap A =
        { s.heap A with cells := fun k =>
            if i ≤ k ∧ k < i + rows.length then rows.getD (k - i) 0 else (s.heap A).cells k } := by
  intro rows
  induction rows with
  | nil =>
    intro i s _
    have hc : (fun k => if i ≤ k ∧ k < i + ([] : List Nat).length then
        ([] : List Nat).getD (k - i) 0 else (s.heap A).cells k) = (s.heap A).cells := by
      funext k
      rw [if_neg (by simp)]
    rw [hc]
    rfl
  | cons a rows ih =>
    intro i s hA
    simp only [List.mem_cons, not_or] at hA
    simp only [rowsState]
    rw [ih (i + 1) _ hA.2, rowStep_heap_A _ _ _ _ _ _ _ _ hA.1]
    simp only
    congr 1
    funext k
    by_cases hk : k = i
    · subst hk
      rw [if_neg (by omega), if_pos (by simp), Function.update_same]
      simp
    · rw [Function.update_noteq hk]
      by_cases h1 : i + 1 ≤ k ∧ k < i + 1 + rows.length
      · rw [if_pos h1, if_pos (by simp only [List.length_cons]; omega)]
        have hki : k - i = (k - (i + 1)) + 1 := by omega
        rw [hki, List.getD_cons_succ]
      · rw [if_neg h1, if_neg (by simp only [List.length_cons]; omega)]

theorem rowsState_heap_row (size_y size_z w e A : Nat) :
    ∀ (rows : List Nat) (i : Nat) (s : State), A ∉ rows → rows.Nodup →
      ∀ k, k < rows.length →
        (rowsState size_y size_z w e A rows i s).heap (rows.getD k 0) =
          ⟨true, size_y, sizeof_ptr,
            fun j => if j < size_y then e + offset3D size_y size_z w (i + k) j else 0⟩ := by
  intro rows
  induction rows with
  | nil =>
    intro i s _ _ k hk
    simp at hk
  | cons a rows ih =>
    intro i s hA hnd k hk
    simp only [List.mem_cons, not_or] at hA
    have hnd2 := List.nodup_cons.1 hnd
    simp only [rowsState]
    cases k with
    | zero =>
      simp only [List.getD_cons_zero, Nat.add_zero]
      rw [rowsState_heap_other _ _ _ _ _ _ _ _ _ hnd2.1 (Ne.symm hA.1)]
      simp [rowStep]
    | succ k =>
      simp only [List.getD_cons_succ]
      simp only [List.length_cons, Nat.add_lt_add_iff_right] at hk
      rw [ih (i + 1) _ hA.2 hnd2.2 k hk]
      have : i + 1 + k = i + (k + 1) := by omega
      rw [this]

theorem malloc3D_enter (s : State) (size_x size_y size_z : Nat) (type : VariableType)
    (A F : Nat) (rest : List Nat) (hlim : s.arrays.counter < MAX_NUMBER_OF_ALLOCATED_ARRAYS)
    (ho : s.oracle = A :: F :: rest) (hA : A ≠ 0) (hF : F ≠ 0) (hAF : A ≠ F)
    (hlA : (s.heap A).live = false) (hlF : (s.heap F).live = false) :
    malloc3D s size_x size_y size_z type =
      malloc3D_outer size_y size_z (get_variable_size type) F A s.arrays.counter size_x 0
        (prebuilt s size_x (flatCount3D size_x size_y size_z) (get_variable_size type) A F) := by
  have hfull : isLimitReached s = false := (isLimitReached_false s).2 hlim
  have e1 := _calloc_grant s size_x sizeof_ptr A (F :: rest) ho hA hlA
  unfold malloc3D
  simp only [hfull, e1]
  have e3 := _calloc_grant
    (bumpCounter { addTotal s size_x sizeof_ptr with
              oracle := F :: rest
              heap := Function.update s.heap A ⟨true, size_x, sizeof_ptr, fun _ => 0⟩
              trace := s.trace ++ [Event.calloc size_x sizeof_ptr A] })
    ((((size_x * size_y) % UINT_RANGE) * size_z) % UINT_RANGE) (get_variable_size type) F rest
    rfl hF (by simp [bumpCounter, Function.update_noteq (Ne.symm hAF), hlF])
  simp only [e3, hA, hF, if_false, Bool.false_eq_true]
  simp only [prebuilt, flatCount3D, setAddress, setElements, bumpCounter, addTotal,
    Function.update_same, ho, List.tail_cons]
  simp [List.append_assoc]

theorem malloc3D_prologue (s : State) (size_x size_y size_z : Nat) (type : VariableType)
    (h : (malloc3D s size_x size_y size_z type).1 ≠ 0) :
    ∃ A F rest, s.arrays.counter < MAX_NUMBER_OF_ALLOCATED_ARRAYS ∧
      s.oracle = A :: F :: rest ∧ A ≠ 0 ∧ F ≠ 0 ∧ A ≠ F ∧
      (s.heap A).live = false ∧ (s.heap F).live = false := by
  unfold malloc3D at h
  by_cases hfull : isLimitReached s = true
  · simp [hfull] at h
  · simp only [hfull, if_false, Bool.false_eq_true] at h
    by_cases h1 : (_calloc s size_x sizeof_ptr).1 = 0
    · simp [h1] at h
    · obtain ⟨ho1, hl1⟩ := _calloc_succ s size_x sizeof_ptr h1
      generalize hAdef : (_calloc s size_x sizeof_ptr).1 = A at ho1 hl1 h1 h
      have e1 := _calloc_grant s size_x sizeof_ptr A s.oracle.tail ho1 h1 hl1
      have e1s : (_calloc s size_x sizeof_ptr).2 = _ := congrArg Prod.snd e1
      simp only [h1, if_false, e1s] at h
      by_cases h3 : (_calloc
          (bumpCounter { addTotal s size_x sizeof_ptr with
              oracle := s.oracle.tail
              heap := Function.update s.heap A ⟨true, size_x, sizeof_ptr, fun _ => 0⟩
              trace := s.trace ++ [Event.calloc size_x sizeof_ptr A] })
          ((((size_x * size_y) % UINT_RANGE) * size_z) % UINT_RANGE)
          (get_variable_size type)).1 = 0
      · rw [if_pos h3] at h
        exact absurd rfl h
      · obtain ⟨ho3, hl3⟩ := _calloc_succ _ _ _ h3
        generalize (_calloc
          (bumpCounter { addTotal s size_x sizeof_ptr with
              oracle := s.oracle.tail
              heap := Function.update s.heap A ⟨true, size_x, sizeof_ptr, fun _ => 0⟩
              trace := s.trace ++ [Event.calloc size_x sizeof_ptr A] })
          ((((size_x * size_y) % UINT_RANGE) * size_z) % UINT_RANGE)
          (get_variable_size type)).1 = F at ho3 hl3 h3
        simp only [bumpCounter] at ho3 hl3
        have hAF : A ≠ F := by
          intro hAF
          subst hAF
          simp at hl3
        rw [Function.update_noteq (Ne.symm hAF)] at hl3
        refine ⟨A, F, s.oracle.tail.tail, ?_, ?_, h1, h3, hAF, hl1, hl3⟩
        · exact (isLimitReached_false s).1 (by simpa using hfull)
        · rw [ho1]
          simp only [List.tail_cons]
          rw [← ho3]

theorem malloc3D_outer_success (size_y size_z w e A index : Nat) :
    ∀ (n i : Nat) (s : State), A ≠ 0 → (s.heap A).live = true →
      (s.heap A).size = sizeof_ptr → i + n ≤ (s.heap A).nmemb →
      (malloc3D_outer size_y size_z w e A index n i s).1 ≠ 0 →
      ∃ rows rest, rows.length = n ∧ s.oracle = rows ++ rest ∧
        (∀ a ∈ rows, a ≠ 0 ∧ (s.heap a).live = false) ∧ rows.Nodup := by
  intro n
  induction n with
  | zero =>
    intro i s _ _ _ _ _
    exact ⟨[], s.oracle, rfl, rfl, by simp, List.nodup_nil⟩
  | succ n ih =>
    intro i s hA hl hs hn h
    by_cases h1 : (_calloc s size_y sizeof_ptr).1 = 0
    · simp [malloc3D_outer, h1] at h
    · obtain ⟨ho1, hl1⟩ := _calloc_succ s size_y sizeof_ptr h1
      generalize (_calloc s size_y sizeof_ptr).1 = a at ho1 hl1 h1
      have hvA : validCell s A i = true := by
        rw [validCell_iff]
        exact ⟨hA, hl, hs, by omega⟩
      have hAa : A ≠ a := by
        intro hh
        subst hh
        rw [hl] at hl1
        exact Bool.noConfusion hl1
      obtain ⟨e1, e2⟩ := malloc3D_row_granted size_y size_z w e A i a s ho1 h1 hl1 hvA
      simp only [malloc3D_outer, e1, if_neg h1, e2] at h
      obtain ⟨rows, rest, hlen, ho, hg, hnd⟩ := ih (i + 1) (rowStep size_y size_z w e A i a s) hA
        (by rw [rowStep_heap_A _ _ _ _ _ _ _ _ hAa]; exact hl)
        (by rw [rowStep_heap_A _ _ _ _ _ _ _ _ hAa]; exact hs)
        (by rw [rowStep_heap_A _ _ _ _ _ _ _ _ hAa]; simp only; omega) h
      have hlive_a : ((rowStep size_y size_z w e A i a s).heap a).live = true := by
        simp [rowStep]
      have hlive_A : ((rowStep size_y size_z w e A i a s).heap A).live = true := by
        rw [rowStep_heap_A _ _ _ _ _ _ _ _ hAa]
        exact hl
      have hnot : ∀ b ∈ rows, b ≠ a ∧ b ≠ A := by
        intro b hb
        have hb2 := (hg b hb).2
        constructor
        · intro hh
          subst hh
          rw [hlive_a] at hb2
          exact Bool.noConfusion hb2
        · intro hh
          subst hh
          rw [hlive_A] at hb2
          exact Bool.noConfusion hb2
      refine ⟨a :: rows, rest, by simp [hlen], ?_, ?_, ?_⟩
      · rw [ho1]
        simp only [rowStep] at ho
        rw [ho]
        rfl
      · intro b hb
        rcases List.mem_cons.1 hb with hb | hb
        · subst hb
          exact ⟨h1, hl1⟩
        · have := hg b hb
          rw [rowStep_heap_other _ _ _ _ _ _ _ _ _ (hnot b hb).1 (hnot b hb).2] at this
          exact this
      · exact List.nodup_cons.2 ⟨fun hmem => (hnot a hmem).1 rfl, hnd⟩

theorem prebuilt_heap_other (s : State) (size_x P w A F p : Nat) (hpA : p ≠ A) (hpF : p ≠ F) :
    (prebuilt s size_x P w A F).heap p = s.heap p := by
  simp [prebuilt, Function.update_noteq hpA, Function.update_noteq hpF]

theorem prebuilt_heap_A (s : State) (size_x P w A F : Nat) (hAF : A ≠ F) :
    (prebuilt s size_x P w A F).heap A = ⟨true, size_x, sizeof_ptr, fun _ => 0⟩ := by
  simp [prebuilt, Function.update_noteq hAF]

theorem prebuilt_heap_F (s : State) (size_x P w A F : Nat) :
    (prebuilt s size_x P w A F).heap F = ⟨true, P, w, fun _ => 0⟩ := by
  simp [prebuilt]

theorem malloc3D_grant (s : State) (size_x size_y size_z : Nat) (type : VariableType)
    (A F : Nat) (rows rest : List Nat)
    (hlim : s.arrays.counter < MAX_NUMBER_OF_ALLOCATED_ARRAYS)
    (ho : s.oracle = A :: F :: (rows ++ rest)) (hlen : rows.length = size_x)
    (hg : Granted s A F rows) :
    malloc3D s size_x size_y size_z type =
      (A, built3D s size_x size_y size_z (get_variable_size type) A F rows) := by
  obtain ⟨hA, hF, hAF, hlA, hlF, hrows, hnd⟩ := hg
  rw [malloc3D_enter s size_x size_y size_z type A F (rows ++ rest) hlim ho hA hF hAF hlA hlF]
  have h := malloc3D_outer_granted size_y size_z (get_variable_size type) F A s.arrays.counter 0
    rows 0 (prebuilt s size_x (flatCount3D size_x size_y size_z) (get_variable_size type) A F)
    rest (by simp [prebuilt, ho])
    (by
      intro a ha
      obtain ⟨h0, haA, haF, hl⟩ := hrows a ha
      rw [prebuilt_heap_other _ _ _ _ _ _ _ haA haF]
      exact ⟨h0, hl⟩)
    hnd hA (by rw [prebuilt_heap_A _ _ _ _ _ _ hAF])
    (by rw [prebuilt_heap_A _ _ _ _ _ _ hAF])
    (by rw [prebuilt_heap_A _ _ _ _ _ _ hAF]; simp [hlen])
  rw [Nat.add_zero, hlen] at h
  rw [h]
  simp [malloc3D_outer, built3D]

theorem malloc3D_success (s : State) (size_x size_y size_z : Nat) (type : VariableType)
    (h : (malloc3D s size_x size_y size_z type).1 ≠ 0) :
    ∃ A F rows rest, s.arrays.counter < MAX_NUMBER_OF_ALLOCATED_ARRAYS ∧
      s.oracle = A :: F :: (rows ++ rest) ∧ rows.length = size_x ∧ Granted s A F rows := by
  obtain ⟨A, F, tl, hlim, ho, hA, hF, hAF, hlA, hlF⟩ :=
    malloc3D_prologue s size_x size_y size_z type h
  rw [malloc3D_enter s size_x size_y size_z type A F tl hlim ho hA hF hAF hlA hlF] at h
  obtain ⟨rows, rest, hlen, ho2, hg, hnd⟩ := malloc3D_outer_success size_y size_z
    (get_variable_size type) F A s.arrays.counter size_x 0
    (prebuilt s size_x (flatCount3D size_x size_y size_z) (get_variable_size type) A F) hA
    (by rw [prebuilt_heap_A _ _ _ _ _ _ hAF])
    (by rw [prebuilt_heap_A _ _ _ _ _ _ hAF])
    (by rw [prebuilt_heap_A _ _ _ _ _ _ hAF]; simp) h
  have htl : tl = rows ++ rest := by
    simp only [prebuilt, ho, List.tail_cons] at ho2
    exact ho2
  refine ⟨A, F, rows, rest, hlim, by rw [ho, htl], hlen, hA, hF, hAF, hlA, hlF, ?_, hnd⟩
  intro a ha
  obtain ⟨h0, hl⟩ := hg a ha
  have haA : a ≠ A := by
    intro hh
    subst hh
    rw [prebuilt_heap_A _ _ _ _ _ _ hAF] at hl
    exact Bool.noConfusion hl
  have haF : a ≠ F := by
    intro hh
    subst hh
    rw [prebuilt_heap_F] at hl
    exact Bool.noConfusion hl
  rw [prebuilt_heap_other _ _ _ _ _ _ _ haA haF] at hl
  exact ⟨h0, haA, haF, hl⟩

theorem flatCount3D_exact (size_x size_y size_z : Nat)
    (hfit : size_x * size_y * size_z < UINT_RANGE) :
    flatCount3D size_x size_y size_z = size_x * size_y * size_z := by
  unfold flatCount3D
  rw [Nat.mod_mul_mod, Nat.mod_eq_of_lt hfit]

theorem offset3D_exact (size_x size_y size_z w i j : Nat)
    (hfit : size_x * size_y * size_z < UINT_RANGE) (hw : w ≤ 8) (hi : i < size_x)
    (hj : j < size_y) :
    offset3D size_y size_z w i j = (i * size_y * size_z + j * size_z) * w := by
  have h1 : (i + 1) * size_y * size_z ≤ size_x * size_y * size_z :=
    Nat.mul_le_mul_right _ (Nat.mul_le_mul_right _ hi)
  have h2 : (j + 1) * size_z ≤ size_y * size_z := Nat.mul_le_mul_right _ hj
  have h3 : (i + 1) * size_y * size_z = i * size_y * size_z + size_y * size_z := by ring
  have h4 : (j + 1) * size_z = j * size_z + size_z := by ring
  have h5 : (i * size_y * size_z + j * size_z) * w ≤ (i * size_y * size_z + j * size_z) * 8 :=
    Nat.mul_le_mul_left _ hw
  unfold offset3D
  rw [Nat.mod_mul_mod]
  unfold UINT_RANGE at hfit ⊢
  unfold SIZE_RANGE
  rw [Nat.mod_eq_of_lt (show i * size_y * size_z < 2 ^ 32 by omega)]
  rw [Nat.mod_eq_of_lt (show j * size_z < 2 ^ 32 by omega)]
  rw [Nat.mod_eq_of_lt (show i * size_y * size_z + j * size_z < 2 ^ 32 by omega)]
  rw [Nat.mod_eq_of_lt (by omega)]

theorem Granted.not_mem (s : State) (A F : Nat) (rows : List Nat) (hg : Granted s A F rows) :
    A ∉ rows ∧ F ∉ rows := by
  obtain ⟨_, _, _, _, _, hrows, _⟩ := hg
  exact ⟨fun h => (hrows A h).2.1 rfl, fun h => (hrows F h).2.2.1 rfl⟩

theorem built3D_registry (s : State) (size_x size_y size_z w A F : Nat) (rows : List Nat) :
    (built3D s size_x size_y size_z w A F rows).arrays.elements =
        Function.update s.arrays.elements s.arrays.counter F ∧
      (built3D s size_x size_y size_z w A F rows).arrays.address =
        Function.update s.arrays.address s.arrays.counter A ∧
      (built3D s size_x size_y size_z w A F rows).arrays.counter =
        (s.arrays.counter + 1) % UINT_RANGE ∧
      (built3D s size_x size_y size_z w A F rows).ub = s.ub ∧
      (built3D s size_x size_y size_z w A F rows).oracle = s.oracle.tail.tail.drop rows.length ∧
      (built3D s size_x size_y size_z w A F rows).trace =
        s.trace ++ [Event.calloc size_x sizeof_ptr A,
          Event.calloc (flatCount3D size_x size_y size_z) w F] ++
          rows.map (fun a => Event.calloc size_y sizeof_ptr a) := by
  obtain ⟨h1, h2, h3, h4, h5, h6⟩ := rowsState_elements size_y size_z w F A rows 0
    (prebuilt s size_x (flatCount3D size_x size_y size_z) w A F)
  unfold built3D
  rw [h1, h2, h3, h4, h5, h6]
  simp [prebuilt]

theorem built3D_heap_A (s : State) (size_x size_y size_z w A F : Nat) (rows : List Nat)
    (hg : Granted s A F rows) :
    (built3D s size_x size_y size_z w A F rows).heap A =
      ⟨true, size_x, sizeof_ptr, fun k => if k < rows.length then rows.getD k 0 else 0⟩ := by
  unfold built3D
  rw [rowsState_heap_A _ _ _ _ _ _ _ _ (Granted.not_mem s A F rows hg).1,
    prebuilt_heap_A _ _ _ _ _ _ hg.2.2.1]
  simp

theorem built3D_heap_row (s : State) (size_x size_y size_z w A F : Nat) (rows : List Nat)
    (hg : Granted s A F rows) (k : Nat) (hk : k < rows.length) :
    (built3D s size_x size_y size_z w A F rows).heap (rows.getD k 0) =
      ⟨true, size_y, sizeof_ptr,
        fun j => if j < size_y then F + offset3D size_y size_z w k j else 0⟩ := by
  unfold built3D
  rw [rowsState_heap_row _ _ _ _ _ _ _ _ (Granted.not_mem s A F rows hg).1 hg.2.2.2.2.2.2 k hk]
  simp

theorem built3D_heap_F (s : State) (size_x size_y size_z w A F : Nat) (rows : List Nat)
    (hg : Granted s A F rows) :
    (built3D s size_x size_y size_z w A F rows).heap F =
      ⟨true, flatCount3D size_x size_y size_z, w, fun _ => 0⟩ := by
  unfold built3D
  rw [rowsState_heap_other _ _ _ _ _ _ _ _ _ (Granted.not_mem s A F rows hg).2
    (Ne.symm hg.2.2.1), prebuilt_heap_F]

theorem built3D_heap_other (s : State) (size_x size_y size_z w A F : Nat) (rows : List Nat)
    (p : Nat) (hpA : p ≠ A) (hpF : p ≠ F) (hp : p ∉ rows) :
    (built3D s size_x size_y size_z w A F rows).heap p = s.heap p := by
  unfold built3D
  rw [rowsState_heap_other _ _ _ _ _ _ _ _ _ hp hpA, prebuilt_heap_other _ _ _ _ _ _ _ hpA hpF]

theorem getD_mem_of_lt (rows : List Nat) (k : Nat) (hk : k < rows.length) :
    rows.getD k 0 ∈ rows := by
  rw [List.getD_eq_getElem _ _ hk]
  exact List.getElem_mem hk

/-- C2. Whenever `malloc3D` succeeds on extents whose product fits in an
`unsigned int`, with `b` the flat-buffer base it registered (the value returned by
its second allocator request, of `size_x * size_y * size_z` elements of the
type's width `w`): for every `i < size_x` and `j < size_y` the leaf
`handle[i][j]` holds `b + (i * size_y * size_z + j * size_z) * w`, and element
`(i, j, k)` resolves to the row-major offset
`(i * size_y * size_z + j * size_z + k) * w` from `b`. -/
theorem malloc3D_row_major (s : State) (size_x size_y size_z : Nat) (type : VariableType)
    (hfit : size_x * size_y * size_z < UINT_RANGE)
    (hok : (malloc3D s size_x size_y size_z type).1 ≠ 0) :
    (∃ tl, (malloc3D s size_x size_y size_z type).2.trace =
        s.trace ++ Event.calloc size_x sizeof_ptr (malloc3D s size_x size_y size_z type).1 ::
          Event.calloc (size_x * size_y * size_z) (get_variable_size type)
            ((malloc3D s size_x size_y size_z type).2.arrays.elements s.arrays.counter) :: tl) ∧
      ∀ i j, i < size_x → j < size_y →
        validCell (malloc3D s size_x size_y size_z type).2
          (malloc3D s size_x size_y size_z type).1 i = true ∧
        validCell (malloc3D s size_x size_y size_z type).2
          (((malloc3D s size_x size_y size_z type).2.heap
            (malloc3D s size_x size_y size_z type).1).cells i) j = true ∧
        ((malloc3D s size_x size_y size_z type).2.heap
            (((malloc3D s size_x size_y size_z type).2.heap
              (malloc3D s size_x size_y size_z type).1).cells i)).cells j =
          (malloc3D s size_x size_y size_z type).2.arrays.elements s.arrays.counter +
            (i * size_y * size_z + j * size_z) * get_variable_size type ∧
        ∀ k, k < size_z →
          subscript3D (malloc3D s size_x size_y size_z type).2
              (malloc3D s size_x size_y size_z type).1 i j k (get_variable_size type) =
            (malloc3D s size_x size_y size_z type).2.arrays.elements s.arrays.counter +
              (i * size_y * size_z + j * size_z + k) * get_variable_size type := by
  obtain ⟨A, F, rows, rest, hlim, ho, hlen, hg⟩ := malloc3D_success s size_x size_y size_z type hok
  rw [malloc3D_grant s size_x size_y size_z type A F rows rest hlim ho hlen hg]
  have hw := get_variable_size_le type
  dsimp only
  obtain ⟨hel, _, _, _, _, htr⟩ :=
    built3D_registry s size_x size_y size_z (get_variable_size type) A F rows
  have hb : (built3D s size_x size_y size_z (get_variable_size type) A F rows).arrays.elements
      s.arrays.counter = F := by
    rw [hel, Function.update_same]
  have hAblk := built3D_heap_A s size_x size_y size_z (get_variable_size type) A F rows hg
  rw [hb]
  refine ⟨⟨rows.map (fun a => Event.calloc size_y sizeof_ptr a), ?_⟩, ?_⟩
  · rw [htr, flatCount3D_exact _ _ _ hfit]
    simp
  · intro i j hi hj
    have hi2 : i < rows.length := by omega
    have hcell : ((built3D s size_x size_y size_z (get_variable_size type) A F rows).heap
        A).cells i = rows.getD i 0 := by
      rw [hAblk]
      simp only [if_pos hi2]
    have hrow := built3D_heap_row s size_x size_y size_z (get_variable_size type) A F rows hg
      i hi2
    have hrow0 : rows.getD i 0 ≠ 0 := (hg.2.2.2.2.2.1 _ (getD_mem_of_lt rows i hi2)).1
    have hleaf : ((built3D s size_x size_y size_z (get_variable_size type) A F rows).heap
        (rows.getD i 0)).cells j =
        F + (i * size_y * size_z + j * size_z) * get_variable_size type := by
      rw [hrow]
      simp only [if_pos hj]
      rw [offset3D_exact size_x size_y size_z _ i j hfit hw hi hj]
    refine ⟨?_, ?_, ?_, ?_⟩
    · rw [validCell_iff, hAblk]
      exact ⟨hg.1, rfl, rfl, hi⟩
    · rw [hcell, validCell_iff, hrow]
      exact ⟨hrow0, rfl, rfl, hj⟩
    · rw [hcell, hleaf]
    · intro k _
      unfold subscript3D
      rw [hcell, hleaf]
      ring

/-- Witness for C2: a 2x3x4 `INT` array built at program start. -/
theorem malloc3D_row_major_witness :
    2 * 3 * 4 < UINT_RANGE ∧
    (malloc3D (State.init [1000, 2000, 3000, 4000]) 2 3 4 VariableType.INT).1 ≠ 0 ∧
    subscript3D (malloc3D (State.init [1000, 2000, 3000, 4000]) 2 3 4 VariableType.INT).2
        (malloc3D (State.init [1000, 2000, 3000, 4000]) 2 3 4 VariableType.INT).1 1 2 3
        (get_variable_size VariableType.INT) =
      (malloc3D (State.init [1000, 2000, 3000, 4000]) 2 3 4 VariableType.INT).2.arrays.elements
        (State.init [1000, 2000, 3000, 4000]).arrays.counter +
          (1 * 3 * 4 + 2 * 4 + 3) * get_variable_size VariableType.INT :=
  ⟨by decide, by decide,
    ((malloc3D_row_major (State.init [1000, 2000, 3000, 4000]) 2 3 4 VariableType.INT
      (by decide) (by decide)).2 1 2 (by decide) (by decide)).2.2.2 3 (by decide)⟩

/-! ## Frame facts: what leaves the registry alone -/

theorem sameRegistry_refl (s : State) : sameRegistry s s := ⟨rfl, rfl, rfl⟩

theorem sameRegistry_trans {s t u : State} (h1 : sameRegistry s t) (h2 : sameRegistry t u) :
    sameRegistry s u :=
  ⟨h2.1.trans h1.1, h2.2.1.trans h1.2.1, h2.2.2.trans h1.2.2⟩

theorem sameRegistry_of_arrays {s t : State} (h : t.arrays = s.arrays) : sameRegistry s t := by
  unfold sameRegistry
  rw [h]
  exact ⟨rfl, rfl, rfl⟩

theorem free_arrays (s : State) (p : Nat) : (free s p).arrays = s.arrays := by
  unfold free
  split
  · rfl
  · split <;> rfl

theorem free_oracle (s : State) (p : Nat) : (free s p).oracle = s.oracle := by
  unfold free
  split
  · rfl
  · split <;> rfl

theorem free_live (s : State) (p : Nat) (hp : p ≠ 0) (hl : (s.heap p).live = true) :
    free s p =
      { s with
          trace := s.trace ++ [Event.free p]
          heap := Function.update s.heap p { s.heap p with live := false } } := by
  unfold free
  simp [hp, hl]

theorem store_arrays (s : State) (p i v : Nat) : (store s p i v).arrays = s.arrays := by
  unfold store
  split <;> rfl

theorem load_arrays (s : State) (p i : Nat) : (load s p i).2.arrays = s.arrays := by
  unfold load
  split <;> rfl

theorem calloc_arrays (s : State) (nmemb size : Nat) :
    (calloc s nmemb size).2.arrays = s.arrays := by
  unfold calloc
  split
  · rfl
  · split <;> rfl

theorem _calloc_sameRegistry (s : State) (nmemb size : Nat) :
    sameRegistry s (_calloc s nmemb size).2 := by
  unfold _calloc sameRegistry
  rw [calloc_arrays]
  exact ⟨rfl, rfl, rfl⟩

theorem malloc2D_loop_arrays (size_y w e A : Nat) :
    ∀ (n i : Nat) (s : State), (malloc2D_loop size_y w e A n i s).arrays = s.arrays := by
  intro n
  induction n with
  | zero =>
    intro i s
    rfl
  | succ n ih =>
    intro i s
    rw [malloc2D_loop, ih, store_arrays]

theorem malloc3D_inner_arrays (size_y size_z w e A i : Nat) :
    ∀ (n j : Nat) (s : State),
      (malloc3D_inner size_y size_z w e A i n j s).arrays = s.arrays := by
  intro n
  induction n with
  | zero =>
    intro j s
    rfl
  | succ n ih =>
    intro j s
    rw [malloc3D_inner]
    rw [ih, store_arrays, load_arrays]

theorem malloc3D_unwind_arrays (A : Nat) :
    ∀ (i : Nat) (s : State), (malloc3D_unwind A i s).arrays = s.arrays := by
  intro i
  induction i with
  | zero =>
    intro s
    rfl
  | succ i ih =>
    intro s
    rw [malloc3D_unwind]
    rw [ih, free_arrays, load_arrays]

theorem malloc3D_outer_sameRegistry (size_y size_z w e A index : Nat) :
    ∀ (n i : Nat) (s : State),
      sameRegistry s (malloc3D_outer size_y size_z w e A index n i s).2 := by
  intro n
  induction n with
  | zero =>
    intro i s
    exact sameRegistry_refl s
  | succ n ih =>
    intro i s
    rw [malloc3D_outer]
    simp only
    have h1 := _calloc_sameRegistry s size_y sizeof_ptr
    split
    · refine sameRegistry_trans h1 (sameRegistry_of_arrays ?_)
      simp only
      rw [free_arrays, free_arrays, malloc3D_unwind_arrays, store_arrays]
    · refine sameRegistry_trans (sameRegistry_trans h1 (sameRegistry_of_arrays ?_)) (ih _ _)
      rw [malloc3D_inner_arrays, store_arrays]

theorem free3D_loop_arrays (A : Nat) :
    ∀ (n i : Nat) (s : State), (free3D_loop A n i s).arrays = s.arrays := by
  intro n
  induction n with
  | zero =>
    intro i s
    rfl
  | succ n ih =>
    intro i s
    rw [free3D_loop]
    split
    · rw [ih, store_arrays, free_arrays, load_arrays]
    · rw [ih, load_arrays]

/-! ## The registry scan of `free2D` / `free3D` -/

theorem registry_scan_match (array : Nat) :
    ∀ (n i : Nat) (s : State) (m : Nat), i ≤ m → m < i + n → s.arrays.address m = array →
      (∀ k, i ≤ k → k < m → s.arrays.address k ≠ array) →
      registry_scan array n i s =
        if s.arrays.elements m ≠ 0 then setElements (free s (s.arrays.elements m)) m 0 else s := by
  intro n
  induction n with
  | zero =>
    intro i s m h1 h2 _ _
    omega
  | succ n ih =>
    intro i s m h1 h2 hm hfirst
    by_cases him : i = m
    · subst him
      rw [registry_scan, if_pos hm.symm]
    · rw [registry_scan, if_neg (fun hh => hfirst i (Nat.le_refl i) (by omega) hh.symm)]
      exact ih (i + 1) s m (by omega) (by omega) hm (fun k hk1 hk2 => hfirst k (by omega) hk2)

theorem first_match (P : Nat → Prop) (n : Nat) (h : P n) :
    ∃ m, m ≤ n ∧ P m ∧ ∀ k, k < m → ¬ P k := by
  classical
  exact ⟨Nat.find ⟨n, h⟩, Nat.find_min' ⟨n, h⟩ h, Nat.find_spec ⟨n, h⟩,
    fun k hk => Nat.find_min ⟨n, h⟩ hk⟩

theorem registry_scan_found (array : Nat) (s : State) (n : Nat) (hn : n < s.arrays.counter)
    (ha : s.arrays.address n = array) :
    ∃ m, m ≤ n ∧ s.arrays.address m = array ∧ (∀ k, k < m → s.arrays.address k ≠ array) ∧
      registry_scan array s.arrays.counter 0 s =
        if s.arrays.elements m ≠ 0 then setElements (free s (s.arrays.elements m)) m 0 else s := by
  obtain ⟨m, hm1, hm2, hm3⟩ := first_match (fun k => s.arrays.address k = array) n ha
  exact ⟨m, hm1, hm2, hm3,
    registry_scan_match array s.arrays.counter 0 s m (Nat.zero_le m) (by omega) hm2
      (fun k _ hk => hm3 k hk)⟩

theorem registry_scan_address (array : Nat) :
    ∀ (n i : Nat) (s : State),
      (registry_scan array n i s).arrays.address = s.arrays.address ∧
      (registry_scan array n i s).arrays.counter = s.arrays.counter ∧
      (registry_scan array n i s).arrays.total_size = s.arrays.total_size ∧
      (registry_scan array n i s).oracle = s.oracle := by
  intro n
  induction n with
  | zero =>
    intro i s
    exact ⟨rfl, rfl, rfl, rfl⟩
  | succ n ih =>
    intro i s
    rw [registry_scan]
    split
    · split
      · simp only [setElements]
        rw [free_arrays, free_oracle]
        exact ⟨rfl, rfl, rfl, rfl⟩
      · exact ⟨rfl, rfl, rfl, rfl⟩
    · exact ih (i + 1) s

theorem scan_release_elements (s : State) (m : Nat) :
    (if s.arrays.elements m ≠ 0 then setElements (free s (s.arrays.elements m)) m 0
      else s).arrays.elements m = 0 := by
  split
  · simp [setElements]
  · rename_i h
    simpa using h

theorem free2D_arrays (s : State) (array size_x size_y : Nat) :
    (free2D s array size_x size_y).arrays =
      (registry_scan array s.arrays.counter 0 s).arrays := by
  unfold free2D
  simp only
  split
  · rw [free_arrays]
  · rfl

theorem free3D_arrays (s : State) (array size_x size_y size_z : Nat) :
    (free3D s array size_x size_y size_z).arrays =
      (registry_scan array s.arrays.counter 0 s).arrays := by
  unfold free3D
  simp only
  split
  · rw [free_arrays, free3D_loop_arrays]
  · rw [free3D_loop_arrays]

theorem scan_keeps_slot (s : State) (h n : Nat) (hn : n < s.arrays.counter)
    (ha : s.arrays.address n = h) :
    n < (registry_scan h s.arrays.counter 0 s).arrays.counter ∧
      (registry_scan h s.arrays.counter 0 s).arrays.address n = h ∧
      ∃ m, m ≤ n ∧ (registry_scan h s.arrays.counter 0 s).arrays.address m = h ∧
        (∀ k, k < m → (registry_scan h s.arrays.counter 0 s).arrays.address k ≠ h) ∧
        (registry_scan h s.arrays.counter 0 s).arrays.elements m = 0 := by
  obtain ⟨h1, h2, _, _⟩ := registry_scan_address h s.arrays.counter 0 s
  obtain ⟨m, hm1, hm2, hm3, hm4⟩ := registry_scan_found h s n hn ha
  rw [h1, h2]
  refine ⟨hn, ha, m, hm1, hm2, hm3, ?_⟩
  rw [hm4]
  exact scan_release_elements s m

theorem built2D_slot (s : State) (size_x size_y w A F : Nat) (rest : List Nat)
    (hlim : s.arrays.counter < MAX_NUMBER_OF_ALLOCATED_ARRAYS) :
    s.arrays.counter < (built2D s size_x size_y w A F rest).arrays.counter ∧
      (built2D s size_x size_y w A F rest).arrays.counter = s.arrays.counter + 1 ∧
      (built2D s size_x size_y w A F rest).arrays.address s.arrays.counter = A ∧
      (built2D s size_x size_y w A F rest).arrays.elements s.arrays.counter = F := by
  have hc : (s.arrays.counter + 1) % UINT_RANGE = s.arrays.counter + 1 := by
    unfold MAX_NUMBER_OF_ALLOCATED_ARRAYS at hlim
    unfold UINT_RANGE
    omega
  simp only [built2D, Function.update_same, hc]
  exact ⟨by omega, trivial, trivial, trivial⟩

theorem built3D_slot (s : State) (size_x size_y size_z w A F : Nat) (rows : List Nat)
    (hlim : s.arrays.counter < MAX_NUMBER_OF_ALLOCATED_ARRAYS) :
    s.arrays.counter < (built3D s size_x size_y size_z w A F rows).arrays.counter ∧
      (built3D s size_x size_y size_z w A F rows).arrays.counter = s.arrays.counter + 1 ∧
      (built3D s size_x size_y size_z w A F rows).arrays.address s.arrays.counter = A ∧
      (built3D s size_x size_y size_z w A F rows).arrays.elements s.arrays.counter = F := by
  have hc : (s.arrays.counter + 1) % UINT_RANGE = s.arrays.counter + 1 := by
    unfold MAX_NUMBER_OF_ALLOCATED_ARRAYS at hlim
    unfold UINT_RANGE
    omega
  obtain ⟨h1, h2, h3, _, _, _⟩ := built3D_registry s size_x size_y size_z w A F rows
  rw [h1, h2, h3, hc, Function.update_same, Function.update_same]
  exact ⟨by omega, rfl, rfl, rfl⟩

/-! ## Round trip: what the matching free leaves in the registry -/

/-- C5, as the code has it. After a successful `malloc2D` (resp. `malloc3D`)
returning `h` and the matching `free2D` (resp. `free3D`), the slot written by
the allocation (index: the cursor before the call) is still below the cursor and
its handle-identity field still equals `h`: the free functions never clear a
handle-identity field.  What the free leaves null is the buffer reference of the
lowest-index slot whose handle identity is `h`. -/
theorem free_keeps_registry_slot (s : State) (size_x size_y size_z : Nat)
    (type : VariableType) (h : Nat) (s' : State) :
    (malloc2D s size_x size_y type = (h, s') → h ≠ 0 →
      s.arrays.counter < (free2D s' h size_x size_y).arrays.counter ∧
      (free2D s' h size_x size_y).arrays.address s.arrays.counter = h ∧
      ∃ m, m ≤ s.arrays.counter ∧ (free2D s' h size_x size_y).arrays.address m = h ∧
        (∀ k, k < m → (free2D s' h size_x size_y).arrays.address k ≠ h) ∧
        (free2D s' h size_x size_y).arrays.elements m = 0) ∧
    (malloc3D s size_x size_y size_z type = (h, s') → h ≠ 0 →
      s.arrays.counter < (free3D s' h size_x size_y size_z).arrays.counter ∧
      (free3D s' h size_x size_y size_z).arrays.address s.arrays.counter = h ∧
      ∃ m, m ≤ s.arrays.counter ∧ (free3D s' h size_x size_y size_z).arrays.address m = h ∧
        (∀ k, k < m → (free3D s' h size_x size_y size_z).arrays.address k ≠ h) ∧
        (free3D s' h size_x size_y size_z).arrays.elements m = 0) := by
  constructor
  · intro hm hh
    have hok : (malloc2D s size_x size_y type).1 ≠ 0 := by rw [hm]; exact hh
    obtain ⟨A, F, rest, hlim, ho, hA, hF, hAF, hlA, hlF⟩ :=
      malloc2D_success s size_x size_y type hok
    rw [malloc2D_grant s size_x size_y type A F rest hlim ho hA hF hAF hlA hlF] at hm
    obtain ⟨rfl, rfl⟩ := Prod.mk.inj hm
    obtain ⟨h1, _, h3, _⟩ :=
      built2D_slot s size_x size_y (get_variable_size type) A F rest hlim
    rw [free2D_arrays]
    exact scan_keeps_slot _ A s.arrays.counter h1 h3
  · intro hm hh
    have hok : (malloc3D s size_x size_y size_z type).1 ≠ 0 := by rw [hm]; exact hh
    obtain ⟨A, F, rows, rest, hlim, ho, hlen, hg⟩ :=
      malloc3D_success s size_x size_y size_z type hok
    rw [malloc3D_grant s size_x size_y size_z type A F rows rest hlim ho hlen hg] at hm
    obtain ⟨rfl, rfl⟩ := Prod.mk.inj hm
    obtain ⟨h1, _, h3, _⟩ :=
      built3D_slot s size_x size_y size_z (get_variable_size type) A F rows hlim
    rw [free3D_arrays]
    exact scan_keeps_slot _ A s.arrays.counter h1 h3

/-- Witness for C5 as amended: a 1x1 (resp. 1x1x1) `INT` array allocated at
program start and released. -/
theorem free_keeps_registry_slot_witness :
    (malloc2D (State.init [1000, 2000, 3000]) 1 1 VariableType.INT =
        (1000, (malloc2D (State.init [1000, 2000, 3000]) 1 1 VariableType.INT).2) ∧
      (1000 : Nat) ≠ 0 ∧
      (free2D (malloc2D (State.init [1000, 2000, 3000]) 1 1 VariableType.INT).2
        1000 1 1).arrays.address (State.init [1000, 2000, 3000]).arrays.counter = 1000) ∧
    (malloc3D (State.init [1000, 2000, 3000]) 1 1 1 VariableType.INT =
        (1000, (malloc3D (State.init [1000, 2000, 3000]) 1 1 1 VariableType.INT).2) ∧
      (free3D (malloc3D (State.init [1000, 2000, 3000]) 1 1 1 VariableType.INT).2
        1000 1 1 1).arrays.address (State.init [1000, 2000, 3000]).arrays.counter = 1000) :=
  ⟨⟨Prod.ext (by decide) rfl, by decide,
      ((free_keeps_registry_slot (State.init [1000, 2000, 3000]) 1 1 1 VariableType.INT 1000
        (malloc2D (State.init [1000, 2000, 3000]) 1 1 VariableType.INT).2).1
        (Prod.ext (by decide) rfl) (by decide)).2.1⟩,
    ⟨Prod.ext (by decide) rfl,
      ((free_keeps_registry_slot (State.init [1000, 2000, 3000]) 1 1 1 VariableType.INT 1000
        (malloc3D (State.init [1000, 2000, 3000]) 1 1 1 VariableType.INT).2).2
        (Prod.ext (by decide) rfl) (by decide)).2.1⟩⟩

/-- Counterexample to C5 as stated: after `malloc2D` of a 1x1 `INT` array at
program start (handle `1000`) and the matching `free2D`, slot 0 lies below the
cursor and its handle-identity field is still `1000`. -/
theorem free2D_entry_remains :
    (malloc2D (State.init [1000, 2000]) 1 1 VariableType.INT).1 = 1000 ∧
    ¬ (∀ k, k < (free2D (malloc2D (State.init [1000, 2000]) 1 1 VariableType.INT).2
          1000 1 1).arrays.counter →
        (free2D (malloc2D (State.init [1000, 2000]) 1 1 VariableType.INT).2
          1000 1 1).arrays.address k ≠ 1000) :=
  ⟨by decide, fun h => h 0 (by decide) (by decide)⟩

/-! ## Failed allocations and the registry -/

theorem counter_succ_mod (s : State) (h : isLimitReached s = false) :
    (s.arrays.counter + 1) % UINT_RANGE = s.arrays.counter + 1 := by
  have := (isLimitReached_false s).1 h
  unfold MAX_NUMBER_OF_ALLOCATED_ARRAYS at this
  unfold UINT_RANGE
  omega

/-- C8, as the code has it. For the tags on which `get_variable_size` returns the
zero-width sentinel (`UNSIGNED_INT` and `CHAR`) the allocation functions do not
test it: `malloc1D` issues the request `calloc(0, size)` and returns its answer;
`malloc2D` and `malloc3D` first request the outer level, then a flat buffer of
element width 0; whenever the allocator grants these requests the call returns
the non-null handle and the cursor has advanced by one. -/
theorem unsupported_type_allocates (s : State) (size size_x size_y size_z : Nat)
    (type : VariableType) (A F : Nat) (rows rest : List Nat)
    (hty : get_variable_size type = 0) (hA : A ≠ 0) (hlA : (s.heap A).live = false) :
    (type = VariableType.UNSIGNED_INT ∨ type = VariableType.CHAR) ∧
    (s.oracle = A :: rest →
      (malloc1D s size type).1 = A ∧
      (malloc1D s size type).2.trace = s.trace ++ [Event.calloc 0 size A]) ∧
    (s.arrays.counter < MAX_NUMBER_OF_ALLOCATED_ARRAYS → s.oracle = A :: F :: rest →
      Granted s A F [] →
      (malloc2D s size_x size_y type).1 = A ∧
      (malloc2D s size_x size_y type).2.trace =
        s.trace ++ [Event.calloc size_x sizeof_ptr A,
          Event.calloc ((size_x * size_y) % UINT_RANGE) 0 F] ∧
      (malloc2D s size_x size_y type).2.arrays.counter = s.arrays.counter + 1) ∧
    (s.arrays.counter < MAX_NUMBER_OF_ALLOCATED_ARRAYS → s.oracle = A :: F :: (rows ++ rest) →
      rows.length = size_x → Granted s A F rows →
      (malloc3D s size_x size_y size_z type).1 = A ∧
      (malloc3D s size_x size_y size_z type).2.trace =
        s.trace ++ [Event.calloc size_x sizeof_ptr A,
          Event.calloc (flatCount3D size_x size_y size_z) 0 F] ++
          rows.map (fun a => Event.calloc size_y sizeof_ptr a) ∧
      (malloc3D s size_x size_y size_z type).2.arrays.counter = s.arrays.counter + 1) := by
  refine ⟨?_, ?_, ?_, ?_⟩
  · cases type <;> first | exact Or.inl rfl | exact Or.inr rfl | exact absurd hty (by decide)
  · intro ho
    unfold malloc1D
    simp only [hty, _calloc_grant s 0 size A rest ho hA hlA, if_neg hA, addTotal]
    exact ⟨trivial, trivial⟩
  · intro hlim ho hg
    obtain ⟨_, hF, hAF, _, hlF, _, _⟩ := hg
    rw [malloc2D_grant s size_x size_y type A F rest hlim ho hA hF hAF hlA hlF, hty]
    have hs := built2D_slot s size_x size_y 0 A F rest hlim
    exact ⟨rfl, rfl, hs.2.1⟩
  · intro hlim ho hlen hg
    rw [malloc3D_grant s size_x size_y size_z type A F rows rest hlim ho hlen hg, hty]
    have hs := built3D_slot s size_x size_y size_z 0 A F rows hlim
    have hr := built3D_registry s size_x size_y size_z 0 A F rows
    exact ⟨rfl, hr.2.2.2.2.2, hs.2.1⟩

/-- Witness for C8 as amended: `CHAR` requests at program start. -/
theorem unsupported_type_allocates_witness :
    get_variable_size VariableType.CHAR = 0 ∧ (1000 : Nat) ≠ 0 ∧
    ((State.init [1000, 2000, 3000]).heap 1000).live = false ∧
    (State.init [1000, 2000, 3000]).oracle = 1000 :: [2000, 3000] ∧
    (malloc1D (State.init [1000, 2000, 3000]) 5 VariableType.CHAR).1 = 1000 ∧
    (State.init [1000, 2000, 3000]).arrays.counter < MAX_NUMBER_OF_ALLOCATED_ARRAYS ∧
    (State.init [1000, 2000, 3000]).oracle = 1000 :: 2000 :: [3000] ∧
    Granted (State.init [1000, 2000, 3000]) 1000 2000 [] ∧
    (malloc2D (State.init [1000, 2000, 3000]) 2 3 VariableType.CHAR).1 = 1000 :=
  ⟨by decide, by decide, by decide, rfl,
    ((unsupported_type_allocates (State.init [1000, 2000, 3000]) 5 2 3 1 VariableType.CHAR
      1000 2000 [] [2000, 3000] (by decide) (by decide) (by decide)).2.1 rfl).1,
    by decide, rfl,
    ⟨by decide, by decide, by decide, by decide, by decide, by simp, List.nodup_nil⟩,
    ((unsupported_type_allocates (State.init [1000, 2000, 3000]) 5 2 3 1 VariableType.CHAR
      1000 2000 [] [3000] (by decide) (by decide) (by decide)).2.2.1 (by decide) rfl
      ⟨by decide, by decide, by decide, by decide, by decide, by simp, List.nodup_nil⟩).1⟩

/-- Counterexample to C8 as stated: at program start `malloc1D(5, CHAR)` calls the
allocator (`calloc(0, 5)`) and returns its non-null answer, and
`malloc2D(2, 3, CHAR)` returns a non-null handle, has made two allocator requests
and has advanced the cursor. -/
theorem unsupported_type_not_rejected :
    get_variable_size VariableType.CHAR = 0 ∧
    (malloc1D (State.init [1000]) 5 VariableType.CHAR).1 = 1000 ∧
    (malloc1D (State.init [1000]) 5 VariableType.CHAR).2.trace = [Event.calloc 0 5 1000] ∧
    (malloc2D (State.init [1000, 2000]) 2 3 VariableType.CHAR).1 = 1000 ∧
    (malloc2D (State.init [1000, 2000]) 2 3 VariableType.CHAR).2.trace =
      [Event.calloc 2 8 1000, Event.calloc 6 0 2000] ∧
    (malloc2D (State.init [1000, 2000]) 2 3 VariableType.CHAR).2.arrays.counter = 1 :=
  ⟨by decide, by decide, by decide, by decide, by decide, by decide⟩

/-! ## Number of elements of the flat buffer -/

/-- C9 at the failing input: `malloc2D(2, 2147483648, INT)` at program start
succeeds, but the flat buffer it requests has 0 elements although
`2 * 2147483648 = 4294967296`, and slot 1 of the handle is set 8589934592 bytes past
the base of that empty buffer; likewise `malloc3D(2, 2, 1073741824, INT)` requests
a flat buffer of 0 elements. -/
theorem flat_count_wraps :
    (2 : Nat) < UINT_RANGE ∧ (2147483648 : Nat) < UINT_RANGE ∧
    (malloc2D (State.init [1000, 2000]) 2 2147483648 VariableType.INT).1 = 1000 ∧
    (malloc2D (State.init [1000, 2000]) 2 2147483648 VariableType.INT).2.trace =
      [Event.calloc 2 8 1000, Event.calloc 0 4 2000] ∧
    (2 : Nat) * 2147483648 = 4294967296 ∧
    ((malloc2D (State.init [1000, 2000]) 2 2147483648 VariableType.INT).2.heap 1000).cells 1 =
      2000 + 8589934592 ∧
    (malloc3D (State.init [1000, 2000, 3000, 4000]) 2 2 1073741824 VariableType.INT).1 = 1000 ∧
    (malloc3D (State.init [1000, 2000, 3000, 4000]) 2 2 1073741824 VariableType.INT).2.trace =
      [Event.calloc 2 8 1000, Event.calloc 0 4 2000, Event.calloc 2 8 3000,
        Event.calloc 2 8 4000] :=
  ⟨by decide, by decide, by decide, by decide, by decide, by decide, by decide, by decide⟩

/-! ## Allocate, release, allocate again -/

/-- C4 at the failing input. In the state reached by one `malloc2D` / `free2D`
round trip (slot 0 keeps the handle identity `1000` with a null buffer
reference), a second `malloc2D` is given the same addresses again: handle
`1000`, flat buffer `2000`, registered in slot 1.  The matching `free2D` stops at
slot 0, releases only the handle, and the flat buffer `2000`, which was not
live before the allocation, stays live; no undefined behaviour is involved. -/
theorem free2D_leaks_after_address_reuse :
    State.afterRoundTrip.arrays.counter = 1 ∧
    State.afterRoundTrip.arrays.address 0 = 1000 ∧
    State.afterRoundTrip.arrays.elements 0 = 0 ∧
    (State.afterRoundTrip.heap 1000).live = false ∧
    (State.afterRoundTrip.heap 2000).live = false ∧
    (malloc2D State.afterRoundTrip 1 1 VariableType.INT).1 = 1000 ∧
    (malloc2D State.afterRoundTrip 1 1 VariableType.INT).2.arrays.elements 1 = 2000 ∧
    ((free2D (malloc2D State.afterRoundTrip 1 1 VariableType.INT).2 1000 1 1).heap 1000).live
      = false ∧
    ((free2D (malloc2D State.afterRoundTrip 1 1 VariableType.INT).2 1000 1 1).heap 2000).live
      = true ∧
    (free2D (malloc2D State.afterRoundTrip 1 1 VariableType.INT).2 1000 1 1).trace.drop
      State.afterRoundTrip.trace.length =
      [Event.calloc 1 8 1000, Event.calloc 1 4 2000, Event.free 1000] ∧
    (free2D (malloc2D State.afterRoundTrip 1 1 VariableType.INT).2 1000 1 1).ub = false :=
  ⟨by decide, by decide, by decide, by decide, by decide, by decide, by decide, by decide,
    by decide, by decide, by decide⟩

/-! ## Roll-back of a partially built 3-D structure -/

theorem malloc3D_unwind_eq (A : Nat) :
    ∀ (rows : List Nat) (s : State), A ≠ 0 → (s.heap A).live = true →
      (s.heap A).size = sizeof_ptr → rows.length ≤ (s.heap A).nmemb →
      (∀ k, k < rows.length → (s.heap A).cells k = rows.getD k 0) →
      (∀ a ∈ rows, a ≠ 0 ∧ a ≠ A ∧ (s.heap a).live = true) → rows.Nodup →
      (malloc3D_unwind A rows.length s).arrays = s.arrays ∧
      (malloc3D_unwind A rows.length s).oracle = s.oracle ∧
      (malloc3D_unwind A rows.length s).ub = s.ub ∧
      (malloc3D_unwind A rows.length s).trace =
        s.trace ++ rows.reverse.map (fun a => Event.free a) ∧
      (∀ p, p ∈ rows → ((malloc3D_unwind A rows.length s).heap p).live = false) ∧
      (∀ p, p ∉ rows → (malloc3D_unwind A rows.length s).heap p = s.heap p) := by
  intro rows
  induction rows using List.reverseRecOn with
  | nil =>
    intro s _ _ _ _ _ _ _
    simp [malloc3D_unwind]
  | append_singleton l a ih =>
    intro s hA hl hs hn hcells hrows hnd
    have hlen : (l ++ [a]).length = l.length + 1 := by simp
    rw [hlen] at hn hcells ⊢
    have ha := hrows a (by simp)
    have hcell_a : (s.heap A).cells l.length = a := by
      rw [hcells l.length (by omega), List.getD_append_right _ _ _ _ (Nat.le_refl _)]
      simp
    have hv : validCell s A l.length = true := by
      rw [validCell_iff]
      exact ⟨hA, hl, hs, by omega⟩
    have hnd2 : l.Nodup ∧ a ∉ l := by
      have := List.nodup_append.1 hnd
      refine ⟨this.1, fun hmem => ?_⟩
      exact this.2.2 hmem (by simp)
    rw [malloc3D_unwind, load_valid s A l.length hv]
    simp only [hcell_a]
    rw [free_live s a ha.1 ha.2.2]
    have hAa : A ≠ a := Ne.symm ha.2.1
    obtain ⟨h1, h2, h3, h4, h5, h6⟩ := ih
      { s with
          trace := s.trace ++ [Event.free a]
          heap := Function.update s.heap a { s.heap a with live := false } }
      hA (by simp [Function.update_noteq hAa, hl]) (by simp [Function.update_noteq hAa, hs])
      (by simp [Function.update_noteq hAa]; omega)
      (by
        intro k hk
        simp only [Function.update_noteq hAa]
        rw [hcells k (by omega), List.getD_append _ _ _ _ hk])
      (by
        intro b hb
        have hb2 := hrows b (by simp [hb])
        have hba : b ≠ a := fun hh => hnd2.2 (hh ▸ hb)
        simp only [Function.update_noteq hba]
        exact hb2)
      hnd2.1
    rw [h1, h2, h3, h4]
    refine ⟨rfl, rfl, rfl, by simp, ?_, ?_⟩
    · intro p hp
      rcases List.mem_append.1 hp with hp | hp
      · exact h5 p hp
      · have hpa : p = a := by simpa using hp
        subst hpa
        rw [h6 p hnd2.2]
        simp
    · intro p hp
      have hp1 : p ∉ l := fun hh => hp (List.mem_append_left _ hh)
      have hp2 : p ≠ a := fun hh => hp (by simp [hh])
      rw [h6 p hp1]
      simp [Function.update_noteq hp2]

theorem calloc_refuse (s : State) (nmemb size : Nat)
    (h : s.oracle = [] ∨ ∃ p tl, s.oracle = p :: tl ∧ (p = 0 ∨ (s.heap p).live = true)) :
    (calloc s nmemb size).1 = 0 := by
  unfold calloc
  rcases h with h | ⟨p, tl, h, hp⟩
  · simp [h]
  · simp [h, hp]

theorem mem_getD (rows : List Nat) (p : Nat) (hp : p ∈ rows) :
    ∃ k, k < rows.length ∧ rows.getD k 0 = p := by
  obtain ⟨k, hk, hkp⟩ := List.mem_iff_getElem.1 hp
  exact ⟨k, hk, by rw [List.getD_eq_getElem _ _ hk, hkp]⟩

theorem built3D_live (s : State) (size_x size_y size_z w A F : Nat) (rows : List Nat)
    (hg : Granted s A F rows) (p : Nat) :
    ((built3D s size_x size_y size_z w A F rows).heap p).live =
      (decide (p ∈ A :: F :: rows) || (s.heap p).live) := by
  by_cases hpA : p = A
  · subst hpA
    rw [built3D_heap_A s size_x size_y size_z w p F rows hg]
    simp
  · by_cases hpF : p = F
    · subst hpF
      rw [built3D_heap_F s size_x size_y size_z w A p rows hg]
      simp
    · by_cases hpr : p ∈ rows
      · obtain ⟨k, hk, hkp⟩ := mem_getD rows p hpr
        have hrow := built3D_heap_row s size_x size_y size_z w A F rows hg k hk
        rw [hkp] at hrow
        rw [hrow]
        simp [hpr]
      · rw [built3D_heap_other s size_x size_y size_z w A F rows p hpA hpF hpr]
        simp [hpA, hpF, hpr]

theorem malloc3D_outer_refused (size_y size_z w e A index k i : Nat) (s : State)
    (h0 : (_calloc s size_y sizeof_ptr).1 = 0) :
    malloc3D_outer size_y size_z w e A index (k + 1) i s =
      (0, free (free (malloc3D_unwind A i (store (_calloc s size_y sizeof_ptr).2 A i 0))
        ((malloc3D_unwind A i (store (_calloc s size_y sizeof_ptr).2 A i 0)).arrays.elements
          index)) A) := by
  rw [malloc3D_outer]
  simp only [h0, if_true]

/-- C6. If during `malloc3D` the allocator has granted the outer level `A`, the
flat buffer `F` and the second-level indexes `rows` of the outer slots
`0 .. i-1` (`i = rows.length < size_x`) and refuses the second-level request
for slot `i`, then the call returns `NULL`; after the refused request its
allocator calls are exactly: `free` of the second-level indexes `i-1, ..., 0`,
then `free` of the flat buffer, then `free` of the outer level, each once;
afterwards every block is live exactly if it was live before the call, and no
undefined behaviour was added. -/
theorem malloc3D_rollback (s : State) (size_x size_y size_z : Nat) (type : VariableType)
    (A F : Nat) (rows tail : List Nat)
    (hlim : s.arrays.counter < MAX_NUMBER_OF_ALLOCATED_ARRAYS)
    (ho : s.oracle = A :: F :: (rows ++ tail)) (hi : rows.length < size_x)
    (hg : Granted s A F rows) (href : Refusal s (A :: F :: rows) tail) :
    (malloc3D s size_x size_y size_z type).1 = 0 ∧
    (malloc3D s size_x size_y size_z type).2.trace =
      s.trace ++ [Event.calloc size_x sizeof_ptr A,
          Event.calloc (flatCount3D size_x size_y size_z) (get_variable_size type) F] ++
        rows.map (fun a => Event.calloc size_y sizeof_ptr a) ++
        [Event.calloc size_y sizeof_ptr 0] ++
        rows.reverse.map (fun a => Event.free a) ++ [Event.free F, Event.free A] ∧
    (∀ p, ((malloc3D s size_x size_y size_z type).2.heap p).live = (s.heap p).live) ∧
    (malloc3D s size_x size_y size_z type).2.ub = s.ub := by
  have hg2 := hg
  obtain ⟨hA, hF, hAF, hlA, hlF, hrows, hnd⟩ := hg
  obtain ⟨hAr, hFr⟩ := Granted.not_mem s A F rows hg2
  rw [malloc3D_enter s size_x size_y size_z type A F (rows ++ tail) hlim ho hA hF hAF hlA hlF]
  obtain ⟨k, hk⟩ : ∃ k, rows.length + (k + 1) = size_x := ⟨size_x - rows.length - 1, by omega⟩
  have hgr := malloc3D_outer_granted size_y size_z (get_variable_size type) F A
    s.arrays.counter (k + 1) rows 0
    (prebuilt s size_x (flatCount3D size_x size_y size_z) (get_variable_size type) A F)
    tail (by simp [prebuilt, ho])
    (by
      intro a ha
      obtain ⟨h0, haA, haF, hl⟩ := hrows a ha
      rw [prebuilt_heap_other _ _ _ _ _ _ _ haA haF]
      exact ⟨h0, hl⟩)
    hnd hA (by rw [prebuilt_heap_A _ _ _ _ _ _ hAF])
    (by rw [prebuilt_heap_A _ _ _ _ _ _ hAF])
    (by rw [prebuilt_heap_A _ _ _ _ _ _ hAF]; simp only; omega)
  rw [hk, Nat.zero_add] at hgr
  rw [hgr]
  change (malloc3D_outer size_y size_z (get_variable_size type) F A s.arrays.counter (k + 1)
      rows.length (built3D s size_x size_y size_z (get_variable_size type) A F rows)).1 = 0 ∧
    (malloc3D_outer size_y size_z (get_variable_size type) F A s.arrays.counter (k + 1)
      rows.length (built3D s size_x size_y size_z (get_variable_size type) A F rows)).2.trace =
      _ ∧
    (∀ p, ((malloc3D_outer size_y size_z (get_variable_size type) F A s.arrays.counter (k + 1)
      rows.length (built3D s size_x size_y size_z (get_variable_size type) A F rows)).2.heap
        p).live = (s.heap p).live) ∧
    (malloc3D_outer size_y size_z (get_variable_size type) F A s.arrays.counter (k + 1)
      rows.length (built3D s size_x size_y size_z (get_variable_size type) A F rows)).2.ub = s.ub
  generalize hst : built3D s size_x size_y size_z (get_variable_size type) A F rows = st
  obtain ⟨hel, _, _, hub, hor, htr⟩ :=
    built3D_registry s size_x size_y size_z (get_variable_size type) A F rows
  have hlive := built3D_live s size_x size_y size_z (get_variable_size type) A F rows hg2
  have hblkA := built3D_heap_A s size_x size_y size_z (get_variable_size type) A F rows hg2
  rw [hst] at hel hub hor htr hlive hblkA
  have hor2 : st.oracle = tail := by
    rw [hor, ho]
    simp
  -- the request for slot `rows.length` is refused
  have h0 : (_calloc st size_y sizeof_ptr).1 = 0 := by
    unfold _calloc
    apply calloc_refuse
    cases tail with
    | nil => exact Or.inl (by simpa [addTotal] using hor2)
    | cons p tl =>
      refine Or.inr ⟨p, tl, by simpa [addTotal] using hor2, ?_⟩
      rcases href with h | h | h
      · exact Or.inl h
      · refine Or.inr ?_
        simp only [addTotal]
        rw [hlive p]
        simp only [Bool.or_eq_true, decide_eq_true_eq]
        exact Or.inl h
      · refine Or.inr ?_
        simp only [addTotal]
        rw [hlive p, h]
        simp
  rw [malloc3D_outer_refused size_y size_z (get_variable_size type) F A s.arrays.counter k
    rows.length st h0]
  have hr2 := _calloc_fail st size_y sizeof_ptr h0
  generalize (_calloc st size_y sizeof_ptr).2 = r2 at hr2 ⊢
  have hv2 : validCell r2 A rows.length = true := by
    rw [validCell_iff, hr2]
    simp only [addTotal]
    rw [hblkA]
    exact ⟨hA, rfl, rfl, hi⟩
  rw [store_valid r2 A rows.length 0 hv2]
  have hr2heap : r2.heap = st.heap := by rw [hr2]; rfl
  obtain ⟨u1, _, u3, u4, u5, u6⟩ := malloc3D_unwind_eq A rows
    { r2 with heap := Function.update r2.heap A
                { r2.heap A with cells := Function.update (r2.heap A).cells rows.length 0 } }
    hA (by simp only [Function.update_same, hr2heap, hblkA])
    (by simp only [Function.update_same, hr2heap, hblkA])
    (by simp only [Function.update_same, hr2heap, hblkA]; omega)
    (by
      intro j hj
      simp only [Function.update_same, hr2heap, hblkA]
      rw [Function.update_noteq (by omega), if_pos hj])
    (by
      intro a ha
      obtain ⟨h0a, haA, _, _⟩ := hrows a ha
      refine ⟨h0a, haA, ?_⟩
      simp only [Function.update_noteq haA, hr2heap]
      rw [hlive a]
      simp [ha])
    hnd
  generalize malloc3D_unwind A rows.length
    { r2 with heap := Function.update r2.heap A
                { r2.heap A with cells := Function.update (r2.heap A).cells rows.length 0 } } = s3
    at u1 u3 u4 u5 u6 ⊢
  simp only at u1 u3 u4 u6
  have he3 : s3.arrays.elements s.arrays.counter = F := by
    rw [u1, hr2]
    simp only [addTotal]
    rw [hel, Function.update_same]
  have hF3 : (s3.heap F).live = true := by
    rw [u6 F hFr, Function.update_noteq (Ne.symm hAF), hr2heap, hlive F]
    simp
  have hA3 : (s3.heap A).live = true := by
    rw [u6 A hAr, Function.update_same]
    simp only [hr2heap, hblkA]
  rw [he3, free_live s3 F hF hF3]
  rw [free_live _ A hA (by simp only [Function.update_noteq hAF, hA3])]
  refine ⟨rfl, ?_, ?_, ?_⟩
  · simp only
    rw [u4, hr2]
    simp only [htr, List.append_assoc, List.singleton_append, List.cons_append,
      List.nil_append]
  · intro p
    simp only
    by_cases hpA : p = A
    · subst hpA
      rw [Function.update_same, hlA]
    · rw [Function.update_noteq hpA]
      by_cases hpF : p = F
      · subst hpF
        rw [Function.update_same, hlF]
      · rw [Function.update_noteq hpF]
        by_cases hpr : p ∈ rows
        · rw [u5 p hpr, (hrows p hpr).2.2.2]
        · rw [u6 p hpr, Function.update_noteq hpA, hr2heap, hlive p]
          simp [hpA, hpF, hpr]
  · simp only
    rw [u3, hr2]
    simp only [addTotal]
    exact hub

/-- Witness for C6: a 3x1x1 `INT` request at program start; the allocator grants
the outer level, the flat buffer and two second-level indexes, then refuses. -/
theorem malloc3D_rollback_witness :
    (State.init [1000, 2000, 3000, 4000, 0]).arrays.counter < MAX_NUMBER_OF_ALLOCATED_ARRAYS ∧
    (State.init [1000, 2000, 3000, 4000, 0]).oracle = 1000 :: 2000 :: ([3000, 4000] ++ [0]) ∧
    [3000, 4000].length < 3 ∧
    Granted (State.init [1000, 2000, 3000, 4000, 0]) 1000 2000 [3000, 4000] ∧
    Refusal (State.init [1000, 2000, 3000, 4000, 0]) (1000 :: 2000 :: [3000, 4000]) [0] ∧
    (malloc3D (State.init [1000, 2000, 3000, 4000, 0]) 3 1 1 VariableType.INT).1 = 0 ∧
    (malloc3D (State.init [1000, 2000, 3000, 4000, 0]) 3 1 1 VariableType.INT).2.ub =
      (State.init [1000, 2000, 3000, 4000, 0]).ub :=
  ⟨by decide, rfl, by decide,
    ⟨by decide, by decide, by decide, by decide, by decide, by decide, by decide⟩,
    Or.inl rfl,
    (malloc3D_rollback (State.init [1000, 2000, 3000, 4000, 0]) 3 1 1 VariableType.INT
      1000 2000 [3000, 4000] [0] (by decide) rfl (by decide)
      ⟨by decide, by decide, by decide, by decide, by decide, by decide, by decide⟩
      (Or.inl rfl)).1,
    (malloc3D_rollback (State.init [1000, 2000, 3000, 4000, 0]) 3 1 1 VariableType.INT
      1000 2000 [3000, 4000] [0] (by decide) rfl (by decide)
      ⟨by decide, by decide, by decide, by decide, by decide, by decide, by decide⟩
      (Or.inl rfl)).2.2.2⟩

/-! ## Releasing what was just built -/

theorem registry_scan_clean (s : State) (A n : Nat) (keep : Nat → Prop)
    (hn : n < s.arrays.counter) (ha : s.arrays.address n = A)
    (hclean : ∀ k, k ≤ n → s.arrays.address k = A →
      s.arrays.elements k = 0 ∨
        ((s.heap (s.arrays.elements k)).live = true ∧ ¬ keep (s.arrays.elements k))) :
    (registry_scan A s.arrays.counter 0 s).ub = s.ub ∧
    ∀ p, keep p → (registry_scan A s.arrays.counter 0 s).heap p = s.heap p := by
  obtain ⟨m, hm1, hm2, _, hm4⟩ := registry_scan_found A s n hn ha
  rw [hm4]
  by_cases he : s.arrays.elements m = 0
  · rw [if_neg (by simpa using he)]
    exact ⟨rfl, fun _ _ => rfl⟩
  · rw [if_pos he]
    rcases hclean m hm1 hm2 with h | ⟨hl, hk⟩
    · exact absurd h he
    · rw [free_live s _ he hl]
      refine ⟨rfl, fun p hp => ?_⟩
      have hpe : p ≠ s.arrays.elements m := fun hh => hk (hh ▸ hp)
      simp [setElements, Function.update_noteq hpe]

theorem free3D_loop_eq (A : Nat) :
    ∀ (rows : List Nat) (i : Nat) (s : State), A ≠ 0 → (s.heap A).live = true →
      (s.heap A).size = sizeof_ptr → i + rows.length ≤ (s.heap A).nmemb →
      (∀ k, k < rows.length → (s.heap A).cells (i + k) = rows.getD k 0) →
      (∀ a ∈ rows, a ≠ 0 ∧ a ≠ A ∧ (s.heap a).live = true) → rows.Nodup →
      (free3D_loop A rows.length i s).ub = s.ub ∧
      (free3D_loop A rows.length i s).trace = s.trace ++ rows.map (fun a => Event.free a) ∧
      ((free3D_loop A rows.length i s).heap A).live = true ∧
      (∀ p, p ∈ rows → ((free3D_loop A rows.length i s).heap p).live = false) ∧
      (∀ p, p ∉ rows → p ≠ A → (free3D_loop A rows.length i s).heap p = s.heap p) := by
  intro rows
  induction rows with
  | nil =>
    intro i s _ hl _ _ _ _ _
    simp [free3D_loop, hl]
  | cons a rows ih =>
    intro i s hA hl hs hn hcells hrows hnd
    simp only [List.length_cons] at hn hcells ⊢
    obtain ⟨ha0, haA, hla⟩ := hrows a (List.mem_cons_self a rows)
    have hnd2 := List.nodup_cons.1 hnd
    have hv : validCell s A i = true := by
      rw [validCell_iff]
      exact ⟨hA, hl, hs, by omega⟩
    have hcell : (s.heap A).cells i = a := by
      have := hcells 0 (by omega)
      simpa using this
    rw [free3D_loop, load_valid s A i hv]
    simp only [hcell, if_pos ha0]
    rw [free_live s a ha0 hla]
    have hv2 : validCell
        { s with
            trace := s.trace ++ [Event.free a]
            heap := Function.update s.heap a { s.heap a with live := false } } A i = true := by
      rw [validCell_iff]
      simp only [Function.update_noteq (Ne.symm haA)]
      exact ⟨hA, hl, hs, by omega⟩
    rw [store_valid _ A i 0 hv2]
    simp only [Function.update_noteq (Ne.symm haA)]
    obtain ⟨h1, h2, h3, h4, h5⟩ := ih (i + 1)
      { s with
          trace := s.trace ++ [Event.free a]
          heap := Function.update (Function.update s.heap a { s.heap a with live := false }) A
            { s.heap A with cells := Function.update (s.heap A).cells i 0 } }
      hA (by simp [hl]) (by simp [hs]) (by simp; omega)
      (by
        intro k hk
        simp only [Function.update_same]
        rw [Function.update_noteq (by omega)]
        have := hcells (k + 1) (by omega)
        rw [List.getD_cons_succ] at this
        rw [← this]
        congr 1
        omega)
      (by
        intro b hb
        obtain ⟨hb0, hbA, hlb⟩ := hrows b (List.mem_cons_of_mem a hb)
        have hba : b ≠ a := fun hh => hnd2.1 (hh ▸ hb)
        refine ⟨hb0, hbA, ?_⟩
        simp only [Function.update_noteq hbA, Function.update_noteq hba]
        exact hlb)
      hnd2.2
    rw [h1, h2]
    refine ⟨rfl, by simp, h3, ?_, ?_⟩
    · intro p hp
      rcases List.mem_cons.1 hp with hp | hp
      · subst hp
        rw [h5 p hnd2.1 haA]
        simp [Function.update_noteq haA]
      · exact h4 p hp
    · intro p hp hpA
      simp only [List.mem_cons, not_or] at hp
      rw [h5 p hp.2 hpA]
      simp [Function.update_noteq hpA, Function.update_noteq hp.1]

theorem free2D_clean (s : State) (A n size_x size_y : Nat) (hA : A ≠ 0)
    (hl : (s.heap A).live = true) (hn : n < s.arrays.counter) (ha : s.arrays.address n = A)
    (hclean : ∀ k, k ≤ n → s.arrays.address k = A →
      s.arrays.elements k = 0 ∨
        ((s.heap (s.arrays.elements k)).live = true ∧ ¬ (s.arrays.elements k = A))) :
    (free2D s A size_x size_y).ub = s.ub := by
  obtain ⟨h1, h2⟩ := registry_scan_clean s A n (fun p => p = A) hn ha hclean
  unfold free2D
  simp only [if_pos hA]
  rw [free_live _ A hA (by rw [h2 A rfl]; exact hl)]
  exact h1

theorem free3D_clean (s : State) (A n size_y size_z : Nat) (rows : List Nat) (hA : A ≠ 0)
    (hl : (s.heap A).live = true) (hs : (s.heap A).size = sizeof_ptr)
    (hnm : rows.length ≤ (s.heap A).nmemb)
    (hcells : ∀ k, k < rows.length → (s.heap A).cells k = rows.getD k 0)
    (hrows : ∀ a ∈ rows, a ≠ 0 ∧ a ≠ A ∧ (s.heap a).live = true) (hnd : rows.Nodup)
    (hn : n < s.arrays.counter) (ha : s.arrays.address n = A)
    (hclean : ∀ k, k ≤ n → s.arrays.address k = A →
      s.arrays.elements k = 0 ∨
        ((s.heap (s.arrays.elements k)).live = true ∧
          ¬ (s.arrays.elements k = A ∨ s.arrays.elements k ∈ rows))) :
    (free3D s A rows.length size_y size_z).ub = s.ub := by
  obtain ⟨h1, h2⟩ := registry_scan_clean s A n (fun p => p = A ∨ p ∈ rows) hn ha hclean
  have hA1 := h2 A (Or.inl rfl)
  obtain ⟨l1, _, l3, _, _⟩ := free3D_loop_eq A rows 0 (registry_scan A s.arrays.counter 0 s) hA
    (by rw [hA1]; exact hl) (by rw [hA1]; exact hs) (by rw [hA1]; omega)
    (by
      intro k hk
      rw [hA1, Nat.zero_add]
      exact hcells k hk)
    (by
      intro a ha'
      obtain ⟨h0, haA, hla⟩ := hrows a ha'
      refine ⟨h0, haA, ?_⟩
      rw [h2 a (Or.inr ha')]
      exact hla)
    hnd
  unfold free3D
  simp only [if_pos hA]
  rw [free_live _ A hA l3]
  simp only
  rw [l1, h1]

theorem built2D_heap_A (s : State) (size_x size_y w A F : Nat) (rest : List Nat) :
    ((built2D s size_x size_y w A F rest).heap A).live = true := by
  simp [built2D]

theorem built2D_heap_F (s : State) (size_x size_y w A F : Nat) (rest : List Nat)
    (hAF : A ≠ F) : ((built2D s size_x size_y w A F rest).heap F).live = true := by
  simp [built2D, Function.update_noteq (Ne.symm hAF)]

theorem built2D_heap_other (s : State) (size_x size_y w A F p : Nat) (rest : List Nat)
    (hpA : p ≠ A) (hpF : p ≠ F) : (built2D s size_x size_y w A F rest).heap p = s.heap p := by
  simp [built2D, Function.update_noteq hpA, Function.update_noteq hpF]

theorem round_trip2D_clean (s : State) (size_x size_y w A F : Nat) (rest : List Nat)
    (hlim : s.arrays.counter < MAX_NUMBER_OF_ALLOCATED_ARRAYS)
    (hg : Granted s A F []) (hreg : NoDanglingFor s A) :
    (free2D (built2D s size_x size_y w A F rest) A size_x size_y).ub = s.ub := by
  obtain ⟨hA, hF, hAF, hlA, hlF, _, _⟩ := hg
  obtain ⟨h1, _, h3, h4⟩ := built2D_slot s size_x size_y w A F rest hlim
  have hub : (built2D s size_x size_y w A F rest).ub = s.ub := rfl
  rw [← hub]
  refine free2D_clean _ A s.arrays.counter size_x size_y hA (built2D_heap_A _ _ _ _ _ _ _) h1 h3 ?_
  intro k hk hka
  by_cases hkn : k = s.arrays.counter
  · subst hkn
    rw [h4]
    exact Or.inr ⟨built2D_heap_F _ _ _ _ _ _ _ hAF, Ne.symm hAF⟩
  · have e1 : (built2D s size_x size_y w A F rest).arrays.address k = s.arrays.address k := by
      simp [built2D, Function.update_noteq hkn]
    have e2 : (built2D s size_x size_y w A F rest).arrays.elements k = s.arrays.elements k := by
      simp [built2D, Function.update_noteq hkn]
    rw [e1] at hka
    rw [e2]
    rcases hreg k (by omega) hka with h | h
    · exact Or.inl h
    · have hEA : s.arrays.elements k ≠ A := by
        intro hh
        rw [hh, hlA] at h
        exact Bool.noConfusion h
      have hEF : s.arrays.elements k ≠ F := by
        intro hh
        rw [hh, hlF] at h
        exact Bool.noConfusion h
      exact Or.inr ⟨by rw [built2D_heap_other _ _ _ _ _ _ _ _ hEA hEF]; exact h, hEA⟩

theorem round_trip3D_clean (s : State) (size_y size_z w A F : Nat) (rows : List Nat)
    (hlim : s.arrays.counter < MAX_NUMBER_OF_ALLOCATED_ARRAYS)
    (hg : Granted s A F rows) (hreg : NoDanglingFor s A) :
    (free3D (built3D s rows.length size_y size_z w A F rows) A rows.length size_y size_z).ub
      = s.ub := by
  have hg2 := hg
  obtain ⟨hA, hF, hAF, hlA, hlF, hrows, hnd⟩ := hg
  obtain ⟨hAr, hFr⟩ := Granted.not_mem s A F rows hg2
  obtain ⟨h1, _, h3, h4⟩ := built3D_slot s rows.length size_y size_z w A F rows hlim
  obtain ⟨hel, had, _, hub, _, _⟩ := built3D_registry s rows.length size_y size_z w A F rows
  have hlive := built3D_live s rows.length size_y size_z w A F rows hg2
  have hblkA := built3D_heap_A s rows.length size_y size_z w A F rows hg2
  rw [← hub]
  refine free3D_clean _ A s.arrays.counter size_y size_z rows hA (by rw [hblkA])
    (by rw [hblkA]) (by rw [hblkA]) ?_ ?_ hnd h1 h3 ?_
  · intro k hk
    rw [hblkA]
    simp only [if_pos hk]
  · intro a ha
    obtain ⟨h0, haA, _, _⟩ := hrows a ha
    refine ⟨h0, haA, ?_⟩
    rw [hlive a]
    simp [ha]
  · intro k hk hka
    by_cases hkn : k = s.arrays.counter
    · subst hkn
      rw [h4]
      refine Or.inr ⟨by rw [hlive F]; simp, ?_⟩
      rintro (hh | hh)
      · exact hAF hh.symm
      · exact hFr hh
    · rw [had, Function.update_noteq hkn] at hka
      rw [hel, Function.update_noteq hkn]
      rcases hreg k (by omega) hka with h | h
      · exact Or.inl h
      · have hEA : s.arrays.elements k ≠ A := by
          intro hh
          rw [hh, hlA] at h
          exact Bool.noConfusion h
        have hEr : s.arrays.elements k ∉ rows := by
          intro hh
          rw [(hrows _ hh).2.2.2] at h
          exact Bool.noConfusion h
        refine Or.inr ⟨by rw [hlive]; simp [h], ?_⟩
        rintro (hh | hh)
        · exact hEA hh
        · exact hEr hh

theorem Granted.nil (s : State) (A F : Nat) (rows : List Nat) (hg : Granted s A F rows) :
    Granted s A F [] :=
  ⟨hg.1, hg.2.1, hg.2.2.1, hg.2.2.2.1, hg.2.2.2.2.1, by simp, List.nodup_nil⟩

theorem flatCount3D_zero (size_x size_y size_z : Nat)
    (h : size_x = 0 ∨ size_y = 0 ∨ size_z = 0) : flatCount3D size_x size_y size_z = 0 := by
  unfold flatCount3D
  rcases h with h | h | h <;> simp [h]

/-- Zero extents on a registry without dangling references. For a call of
`malloc1D`, `malloc2D` or `malloc3D` in which at least one extent is 0, made with
the registry not full and with the allocator granting every request of the call
(`A` for the outer level, resp. the 1-D buffer, `F` for the flat buffer, `rows`
for the second-level indexes), in a state where no registry slot carrying the
address `A` holds a dangling buffer reference: the call returns the non-null
handle `A`, the flat buffer it requests has zero elements (for `malloc1D`:
`calloc(width, 0)`, zero bytes), and the matching free call with the same
extents adds no undefined behaviour: every block it releases is live.  The
element type may be any tag. -/
theorem zero_extent_round_trip (s : State) (size_x size_y size_z : Nat) (type : VariableType)
    (A F : Nat) (rows rest : List Nat)
    (hlim : s.arrays.counter < MAX_NUMBER_OF_ALLOCATED_ARRAYS)
    (hg : Granted s A F rows) (hreg : NoDanglingFor s A) :
    A ≠ 0 ∧
    (s.oracle = A :: rest →
      (malloc1D s 0 type).1 = A ∧
      (malloc1D s 0 type).2.trace = s.trace ++ [Event.calloc (get_variable_size type) 0 A] ∧
      (free1D (malloc1D s 0 type).2 A 0).ub = s.ub) ∧
    (s.oracle = A :: F :: rest → (size_x = 0 ∨ size_y = 0) →
      (malloc2D s size_x size_y type).1 = A ∧
      (malloc2D s size_x size_y type).2.trace =
        s.trace ++ [Event.calloc size_x sizeof_ptr A,
          Event.calloc 0 (get_variable_size type) F] ∧
      (free2D (malloc2D s size_x size_y type).2 A size_x size_y).ub = s.ub) ∧
    (s.oracle = A :: F :: (rows ++ rest) → rows.length = size_x →
      (size_x = 0 ∨ size_y = 0 ∨ size_z = 0) →
      (malloc3D s size_x size_y size_z type).1 = A ∧
      (malloc3D s size_x size_y size_z type).2.trace =
        s.trace ++ [Event.calloc size_x sizeof_ptr A,
          Event.calloc 0 (get_variable_size type) F] ++
          rows.map (fun a => Event.calloc size_y sizeof_ptr a) ∧
      (free3D (malloc3D s size_x size_y size_z type).2 A size_x size_y size_z).ub = s.ub) := by
  have hg2 := hg
  obtain ⟨hA, hF, hAF, hlA, hlF, hrows, hnd⟩ := hg
  refine ⟨hA, ?_, ?_, ?_⟩
  · intro ho
    unfold malloc1D
    simp only [_calloc_grant s (get_variable_size type) 0 A rest ho hA hlA, if_neg hA]
    refine ⟨trivial, trivial, ?_⟩
    unfold free1D
    rw [if_pos hA, free_live _ A hA (by simp)]
    rfl
  · intro ho hz
    rw [malloc2D_grant s size_x size_y type A F rest hlim ho hA hF hAF hlA hlF]
    have hP : (size_x * size_y) % UINT_RANGE = 0 := by
      rcases hz with h | h <;> simp [h]
    refine ⟨rfl, ?_, ?_⟩
    · simp only [built2D, hP]
    · exact round_trip2D_clean s size_x size_y (get_variable_size type) A F rest hlim
        (Granted.nil s A F rows hg2) hreg
  · intro ho hlen hz
    rw [malloc3D_grant s size_x size_y size_z type A F rows rest hlim ho hlen hg2]
    obtain ⟨_, _, _, _, _, htr⟩ :=
      built3D_registry s size_x size_y size_z (get_variable_size type) A F rows
    refine ⟨rfl, ?_, ?_⟩
    · simp only
      rw [htr, flatCount3D_zero size_x size_y size_z hz]
    · subst hlen
      exact round_trip3D_clean s size_y size_z (get_variable_size type) A F rows hlim hg2 hreg

/-- An instance of the zero-extent round trip: at program start,
`malloc3D(1, 0, 5, INT)` followed by the matching free. -/
theorem zero_extent_round_trip_witness :
    (State.init [1000, 2000, 3000]).arrays.counter < MAX_NUMBER_OF_ALLOCATED_ARRAYS ∧
    Granted (State.init [1000, 2000, 3000]) 1000 2000 [3000] ∧
    NoDanglingFor (State.init [1000, 2000, 3000]) 1000 ∧
    (State.init [1000, 2000, 3000]).oracle = 1000 :: 2000 :: ([3000] ++ []) ∧
    [3000].length = 1 ∧ ((1 : Nat) = 0 ∨ (0 : Nat) = 0 ∨ (5 : Nat) = 0) ∧
    (malloc3D (State.init [1000, 2000, 3000]) 1 0 5 VariableType.INT).1 = 1000 ∧
    (free3D (malloc3D (State.init [1000, 2000, 3000]) 1 0 5 VariableType.INT).2
      1000 1 0 5).ub = (State.init [1000, 2000, 3000]).ub :=
  ⟨by decide, ⟨by decide, by decide, by decide, by decide, by decide, by decide, by decide⟩,
    fun k hk => absurd hk (Nat.not_lt_zero k), rfl, rfl, Or.inr (Or.inl rfl),
    ((zero_extent_round_trip (State.init [1000, 2000, 3000]) 1 0 5 VariableType.INT 1000 2000
      [3000] [] (by decide)
      ⟨by decide, by decide, by decide, by decide, by decide, by decide, by decide⟩
      (fun k hk => absurd hk (Nat.not_lt_zero k))).2.2.2 rfl rfl (Or.inr (Or.inl rfl))).1,
    ((zero_extent_round_trip (State.init [1000, 2000, 3000]) 1 0 5 VariableType.INT 1000 2000
      [3000] [] (by decide)
      ⟨by decide, by decide, by decide, by decide, by decide, by decide, by decide⟩
      (fun k hk => absurd hk (Nat.not_lt_zero k))).2.2.2 rfl rfl (Or.inr (Or.inl rfl))).2.2⟩

/-! ## Round trip on an address that is new to the registry -/

theorem registry_scan_own_slot (s : State) (A n : Nat) (hn : n < s.arrays.counter)
    (ha : s.arrays.address n = A) (hfirst : ∀ k, k < n → s.arrays.address k ≠ A)
    (he : s.arrays.elements n ≠ 0) :
    registry_scan A s.arrays.counter 0 s = setElements (free s (s.arrays.elements n)) n 0 := by
  rw [registry_scan_match A s.arrays.counter 0 s n (Nat.zero_le n) (by omega) ha
    (fun k _ hk => hfirst k hk), if_pos he]

/-- When no slot below the cursor carries the address of the new handle, a
successful `malloc2D` followed by the matching `free2D` makes exactly the
allocator calls `calloc`, `calloc`, `free` of the flat buffer, `free` of the
handle, leaves every block live exactly if it was live before, and adds no
undefined behaviour. -/
theorem round_trip2D_restores (s : State) (size_x size_y w A F : Nat) (rest : List Nat)
    (hlim : s.arrays.counter < MAX_NUMBER_OF_ALLOCATED_ARRAYS)
    (hg : Granted s A F [])
    (hnew : ∀ k, k < s.arrays.counter → s.arrays.address k ≠ A) :
    (free2D (built2D s size_x size_y w A F rest) A size_x size_y).trace =
        s.trace ++ [Event.calloc size_x sizeof_ptr A,
          Event.calloc ((size_x * size_y) % UINT_RANGE) w F, Event.free F, Event.free A] ∧
      (∀ p, ((free2D (built2D s size_x size_y w A F rest) A size_x size_y).heap p).live =
        (s.heap p).live) ∧
      (free2D (built2D s size_x size_y w A F rest) A size_x size_y).ub = s.ub := by
  obtain ⟨hA, hF, hAF, hlA, hlF, _, _⟩ := hg
  obtain ⟨h1, _, h3, h4⟩ := built2D_slot s size_x size_y w A F rest hlim
  have hfirst : ∀ k, k < s.arrays.counter →
      (built2D s size_x size_y w A F rest).arrays.address k ≠ A := by
    intro k hk
    have : (built2D s size_x size_y w A F rest).arrays.address k = s.arrays.address k := by
      simp [built2D, Function.update_noteq (Nat.ne_of_lt hk)]
    rw [this]
    exact hnew k hk
  unfold free2D
  simp only [if_pos hA]
  rw [registry_scan_own_slot _ A s.arrays.counter h1 h3 hfirst (by rw [h4]; exact hF), h4]
  rw [free_live _ F hF (built2D_heap_F _ _ _ _ _ _ _ hAF)]
  rw [free_live _ A hA (by
    simp only [setElements, Function.update_noteq hAF]
    exact built2D_heap_A _ _ _ _ _ _ _)]
  refine ⟨by simp [setElements, built2D], ?_, rfl⟩
  intro p
  simp only [setElements]
  by_cases hpA : p = A
  · subst hpA
    rw [Function.update_same, hlA]
  · rw [Function.update_noteq hpA]
    by_cases hpF : p = F
    · subst hpF
      rw [Function.update_same, hlF]
    · rw [Function.update_noteq hpF, built2D_heap_other _ _ _ _ _ _ _ _ hpA hpF]

/-- When no slot below the cursor carries the address of the new handle, a
successful `malloc3D` followed by the matching `free3D` releases the flat
buffer, then every second-level index in slot order, then the outer level, each
once, leaves every block live exactly if it was live before, and adds no
undefined behaviour. -/
theorem round_trip3D_restores (s : State) (size_y size_z w A F : Nat) (rows : List Nat)
    (hlim : s.arrays.counter < MAX_NUMBER_OF_ALLOCATED_ARRAYS)
    (hg : Granted s A F rows)
    (hnew : ∀ k, k < s.arrays.counter → s.arrays.address k ≠ A) :
    (free3D (built3D s rows.length size_y size_z w A F rows) A rows.length size_y size_z).trace =
        (built3D s rows.length size_y size_z w A F rows).trace ++ [Event.free F] ++
          rows.map (fun a => Event.free a) ++ [Event.free A] ∧
      (∀ p, ((free3D (built3D s rows.length size_y size_z w A F rows) A rows.length size_y
        size_z).heap p).live = (s.heap p).live) ∧
      (free3D (built3D s rows.length size_y size_z w A F rows) A rows.length size_y size_z).ub
        = s.ub := by
  have hg2 := hg
  obtain ⟨hA, hF, hAF, hlA, hlF, hrows, hnd⟩ := hg
  obtain ⟨hAr, hFr⟩ := Granted.not_mem s A F rows hg2
  obtain ⟨h1, _, h3, h4⟩ := built3D_slot s rows.length size_y size_z w A F rows hlim
  obtain ⟨_, had, _, hub, _, _⟩ := built3D_registry s rows.length size_y size_z w A F rows
  have hlive := built3D_live s rows.length size_y size_z w A F rows hg2
  have hblkA := built3D_heap_A s rows.length size_y size_z w A F rows hg2
  have hfirst : ∀ k, k < s.arrays.counter →
      (built3D s rows.length size_y size_z w A F rows).arrays.address k ≠ A := by
    intro k hk
    rw [had, Function.update_noteq (Nat.ne_of_lt hk)]
    exact hnew k hk
  have hscan := registry_scan_own_slot _ A s.arrays.counter h1 h3 hfirst (by rw [h4]; exact hF)
  rw [h4, free_live _ F hF (by rw [hlive F]; simp)] at hscan
  generalize hst : built3D s rows.length size_y size_z w A F rows = st at *
  obtain ⟨l1, l2, l3, l4, l5⟩ := free3D_loop_eq A rows 0
    (registry_scan A st.arrays.counter 0 st) hA
    (by rw [hscan]; simp only [setElements, Function.update_noteq hAF, hblkA])
    (by rw [hscan]; simp only [setElements, Function.update_noteq hAF, hblkA])
    (by rw [hscan]; simp only [setElements, Function.update_noteq hAF, hblkA]; omega)
    (by
      intro k hk
      rw [hscan]
      simp only [setElements, Function.update_noteq hAF, hblkA, Nat.zero_add, if_pos hk])
    (by
      intro a ha
      obtain ⟨h0, haA, haF, _⟩ := hrows a ha
      refine ⟨h0, haA, ?_⟩
      rw [hscan]
      simp only [setElements, Function.update_noteq haF]
      rw [hlive a]
      simp [ha])
    hnd
  unfold free3D
  simp only [if_pos hA]
  rw [free_live _ A hA l3]
  refine ⟨?_, ?_, ?_⟩
  · simp only
    rw [l2, hscan]
    simp [setElements]
  · intro p
    simp only
    by_cases hpA : p = A
    · subst hpA
      rw [Function.update_same, hlA]
    · rw [Function.update_noteq hpA]
      by_cases hpr : p ∈ rows
      · rw [l4 p hpr, (hrows p hpr).2.2.2]
      · rw [l5 p hpr hpA, hscan]
        simp only [setElements]
        by_cases hpF : p = F
        · subst hpF
          rw [Function.update_same, hlF]
        · rw [Function.update_noteq hpF, hlive p]
          simp [hpA, hpF, hpr]
  · simp only
    rw [l1, hscan]
    simp only [setElements]
    exact hub

/-- C10 at the failing input. In the state left by a failed `malloc3D` (slot 0
still holds the released outer level `1000` and the released flat buffer `2000`;
the registry is not full), `malloc2D(0, 5, INT)` is granted both requests: it
returns the non-null handle `1000` (the address is handed out again) and its
flat buffer `3000` has zero elements.  The matching `free2D(1000, 0, 5)` stops
at slot 0 and calls `free` on `2000`, a block that is not live: undefined
behaviour. -/
theorem zero_extent_release_frees_dead_block :
    (malloc3D (State.init [1000, 2000, 0, 1000, 3000]) 1 1 1000 VariableType.INT).1 = 0 ∧
    State.afterFailedBuild.arrays.counter = 1 ∧
    State.afterFailedBuild.arrays.address 0 = 1000 ∧
    State.afterFailedBuild.arrays.elements 0 = 2000 ∧
    (State.afterFailedBuild.heap 2000).live = false ∧
    State.afterFailedBuild.ub = false ∧
    (malloc2D State.afterFailedBuild 0 5 VariableType.INT).1 = 1000 ∧
    (malloc2D State.afterFailedBuild 0 5 VariableType.INT).2.trace.drop
      State.afterFailedBuild.trace.length =
      [Event.calloc 0 8 1000, Event.calloc 0 4 3000] ∧
    ((malloc2D State.afterFailedBuild 0 5 VariableType.INT).2.heap 2000).live = false ∧
    (malloc2D State.afterFailedBuild 0 5 VariableType.INT).2.ub = false ∧
    (free2D (malloc2D State.afterFailedBuild 0 5 VariableType.INT).2 1000 0 5).trace.drop
      (malloc2D State.afterFailedBuild 0 5 VariableType.INT).2.trace.length =
      [Event.free 2000, Event.free 1000] ∧
    (free2D (malloc2D State.afterFailedBuild 0 5 VariableType.INT).2 1000 0 5).ub = true :=
  ⟨by decide, by decide, by decide, by decide, by decide, by decide, by decide, by decide,
    by decide, by decide, by decide, by decide⟩

/-! ## Effect of every call on the registry -/

theorem malloc1D_eq (s : State) (size : Nat) (type : VariableType) :
    malloc1D s size type = _calloc s (get_variable_size type) size := by
  unfold malloc1D
  simp only
  split
  · rename_i h
    exact Prod.ext h.symm rfl
  · rfl

theorem calloc_trace (s : State) (nmemb size : Nat) :
    (calloc s nmemb size).2.trace =
      s.trace ++ [Event.calloc nmemb size (calloc s nmemb size).1] := by
  unfold calloc
  split
  · rfl
  · split <;> rfl

theorem _calloc_trace (s : State) (nmemb size : Nat) :
    (_calloc s nmemb size).2.trace =
      s.trace ++ [Event.calloc nmemb size (_calloc s nmemb size).1] := by
  unfold _calloc
  rw [calloc_trace]
  rfl

theorem malloc2D_registry (s : State) (size_x size_y : Nat) (type : VariableType) :
    sameRegistry s (malloc2D s size_x size_y type).2 ∨
      (s.arrays.counter < MAX_NUMBER_OF_ALLOCATED_ARRAYS ∧
        (malloc2D s size_x size_y type).2.arrays.counter = s.arrays.counter + 1 ∧
        ∀ k, k ≠ s.arrays.counter →
          (malloc2D s size_x size_y type).2.arrays.address k = s.arrays.address k ∧
          (malloc2D s size_x size_y type).2.arrays.elements k = s.arrays.elements k) := by
  have hr1 := _calloc_sameRegistry s size_x sizeof_ptr
  unfold malloc2D
  by_cases hfull : isLimitReached s = true
  · rw [if_pos hfull]
    exact Or.inl (sameRegistry_refl s)
  · rw [if_neg hfull]
    simp only
    by_cases h1 : (_calloc s size_x sizeof_ptr).1 = 0
    · rw [if_pos h1]
      exact Or.inl hr1
    · rw [if_neg h1]
      have hnf : isLimitReached s = false := by simpa using hfull
      have hr3 := _calloc_sameRegistry (bumpCounter (_calloc s size_x sizeof_ptr).2)
        ((size_x * size_y) % UINT_RANGE) (get_variable_size type)
      refine Or.inr ⟨(isLimitReached_false s).1 hnf, ?_⟩
      split
      · rw [free_arrays]
        simp only [setElements]
        rw [hr3.1, hr3.2.1, hr3.2.2]
        simp only [bumpCounter]
        rw [hr1.1, hr1.2.1, hr1.2.2, counter_succ_mod s hnf]
        exact ⟨rfl, fun k hk => ⟨rfl, Function.update_noteq hk _ _⟩⟩
      · simp only
        rw [malloc2D_loop_arrays]
        simp only [setAddress, setElements]
        rw [hr3.1, hr3.2.1, hr3.2.2]
        simp only [bumpCounter]
        rw [hr1.1, hr1.2.1, hr1.2.2, counter_succ_mod s hnf]
        exact ⟨rfl, fun k hk => ⟨Function.update_noteq hk _ _, Function.update_noteq hk _ _⟩⟩

theorem malloc3D_registry (s : State) (size_x size_y size_z : Nat) (type : VariableType) :
    sameRegistry s (malloc3D s size_x size_y size_z type).2 ∨
      (s.arrays.counter < MAX_NUMBER_OF_ALLOCATED_ARRAYS ∧
        (malloc3D s size_x size_y size_z type).2.arrays.counter = s.arrays.counter + 1 ∧
        ∀ k, k ≠ s.arrays.counter →
          (malloc3D s size_x size_y size_z type).2.arrays.address k = s.arrays.address k ∧
          (malloc3D s size_x size_y size_z type).2.arrays.elements k = s.arrays.elements k) := by
  have hr1 := _calloc_sameRegistry s size_x sizeof_ptr
  unfold malloc3D
  by_cases hfull : isLimitReached s = true
  · rw [if_pos hfull]
    exact Or.inl (sameRegistry_refl s)
  · rw [if_neg hfull]
    simp only
    by_cases h1 : (_calloc s size_x sizeof_ptr).1 = 0
    · rw [if_pos h1]
      exact Or.inl hr1
    · rw [if_neg h1]
      have hnf : isLimitReached s = false := by simpa using hfull
      have hr3 := _calloc_sameRegistry (bumpCounter (_calloc s size_x sizeof_ptr).2)
        ((((size_x * size_y) % UINT_RANGE) * size_z) % UINT_RANGE) (get_variable_size type)
      refine Or.inr ⟨(isLimitReached_false s).1 hnf, ?_⟩
      split
      · rw [free_arrays]
        simp only [setElements]
        rw [hr3.1, hr3.2.1, hr3.2.2]
        simp only [bumpCounter]
        rw [hr1.1, hr1.2.1, hr1.2.2, counter_succ_mod s hnf]
        exact ⟨rfl, fun k hk => ⟨rfl, Function.update_noteq hk _ _⟩⟩
      · obtain ⟨e1, e2, e3⟩ := malloc3D_outer_sameRegistry size_y size_z (get_variable_size type)
          ((setAddress (setElements (_calloc (bumpCounter (_calloc s size_x sizeof_ptr).2)
            ((((size_x * size_y) % UINT_RANGE) * size_z) % UINT_RANGE)
            (get_variable_size type)).2 (_calloc s size_x sizeof_ptr).2.arrays.counter
            (_calloc (bumpCounter (_calloc s size_x sizeof_ptr).2)
            ((((size_x * size_y) % UINT_RANGE) * size_z) % UINT_RANGE)
            (get_variable_size type)).1) (_calloc s size_x sizeof_ptr).2.arrays.counter
            (_calloc s size_x sizeof_ptr).1).arrays.elements
            (_calloc s size_x sizeof_ptr).2.arrays.counter)
          (_calloc s size_x sizeof_ptr).1 (_calloc s size_x sizeof_ptr).2.arrays.counter
          size_x 0
          (setAddress (setElements (_calloc (bumpCounter (_calloc s size_x sizeof_ptr).2)
            ((((size_x * size_y) % UINT_RANGE) * size_z) % UINT_RANGE)
            (get_variable_size type)).2 (_calloc s size_x sizeof_ptr).2.arrays.counter
            (_calloc (bumpCounter (_calloc s size_x sizeof_ptr).2)
            ((((size_x * size_y) % UINT_RANGE) * size_z) % UINT_RANGE)
            (get_variable_size type)).1) (_calloc s size_x sizeof_ptr).2.arrays.counter
            (_calloc s size_x sizeof_ptr).1)
        rw [e1, e2, e3]
        simp only [setAddress, setElements]
        rw [hr3.1, hr3.2.1, hr3.2.2]
        simp only [bumpCounter]
        rw [hr1.1, hr1.2.1, hr1.2.2, counter_succ_mod s hnf]
        exact ⟨rfl, fun k hk => ⟨Function.update_noteq hk _ _, Function.update_noteq hk _ _⟩⟩

theorem free2D_registry (s : State) (array size_x size_y : Nat) :
    (free2D s array size_x size_y).arrays.counter = s.arrays.counter ∧
      (free2D s array size_x size_y).arrays.address = s.arrays.address := by
  obtain ⟨h1, h2, _, _⟩ := registry_scan_address array s.arrays.counter 0 s
  rw [free2D_arrays]
  exact ⟨h2, h1⟩

theorem free3D_registry (s : State) (array size_x size_y size_z : Nat) :
    (free3D s array size_x size_y size_z).arrays.counter = s.arrays.counter ∧
      (free3D s array size_x size_y size_z).arrays.address = s.arrays.address := by
  obtain ⟨h1, h2, _, _⟩ := registry_scan_address array s.arrays.counter 0 s
  rw [free3D_arrays]
  exact ⟨h2, h1⟩

theorem free1D_arrays (s : State) (array size : Nat) :
    (free1D s array size).arrays = s.arrays := by
  unfold free1D
  split
  · rw [free_arrays]
  · rfl

/-! ## One-dimensional buffers -/

/-- C14. `malloc1D` and `free1D` never touch the registry: for every size, type
and argument both registry tables and the counter are the same after the call
as before.  `malloc1D` makes one allocator request, for `variable_size` members
of `size` bytes, and returns its answer itself as the handle (when non-null, a
live zeroed block of that shape); `free1D` on a null argument leaves the whole
state unchanged. -/
theorem one_dimensional_frame (s : State) (size : Nat) (type : VariableType) (array : Nat) :
    sameRegistry s (malloc1D s size type).2 ∧
    (malloc1D s size type).2.trace =
      s.trace ++ [Event.calloc (get_variable_size type) size (malloc1D s size type).1] ∧
    ((malloc1D s size type).1 ≠ 0 →
      (malloc1D s size type).2.heap (malloc1D s size type).1 =
        ⟨true, get_variable_size type, size, fun _ => 0⟩) ∧
    sameRegistry s (free1D s array size) ∧
    free1D s 0 size = s := by
  rw [malloc1D_eq]
  refine ⟨_calloc_sameRegistry s _ _, _calloc_trace s _ _, ?_, ?_, ?_⟩
  · intro h
    obtain ⟨ho, hl⟩ := _calloc_succ s (get_variable_size type) size h
    have e := _calloc_grant s (get_variable_size type) size _ s.oracle.tail ho h hl
    have e2 : (_calloc s (get_variable_size type) size).2 = _ := congrArg Prod.snd e
    rw [e2]
    simp
  · exact sameRegistry_of_arrays (free1D_arrays s array size)
  · unfold free1D
    simp

/-- Witness for C14: `malloc1D(5, INT)` at program start, granted at `1000`. -/
theorem one_dimensional_frame_witness :
    (malloc1D (State.init [1000]) 5 VariableType.INT).1 ≠ 0 ∧
    (malloc1D (State.init [1000]) 5 VariableType.INT).2.heap
        (malloc1D (State.init [1000]) 5 VariableType.INT).1 =
      ⟨true, get_variable_size VariableType.INT, 5, fun _ => 0⟩ :=
  ⟨by decide,
    (one_dimensional_frame (State.init [1000]) 5 VariableType.INT 0).2.2.1 (by decide)⟩

/-! ## Registration by a successful build -/

theorem built2D_others (s : State) (size_x size_y w A F : Nat) (rest : List Nat) (k : Nat)
    (hk : k ≠ s.arrays.counter) :
    (built2D s size_x size_y w A F rest).arrays.address k = s.arrays.address k ∧
      (built2D s size_x size_y w A F rest).arrays.elements k = s.arrays.elements k := by
  simp [built2D, Function.update_noteq hk]

theorem built3D_others (s : State) (size_x size_y size_z w A F : Nat) (rows : List Nat)
    (k : Nat) (hk : k ≠ s.arrays.counter) :
    (built3D s size_x size_y size_z w A F rows).arrays.address k = s.arrays.address k ∧
      (built3D s size_x size_y size_z w A F rows).arrays.elements k = s.arrays.elements k := by
  obtain ⟨h1, h2, _, _, _, _⟩ := built3D_registry s size_x size_y size_z w A F rows
  rw [h1, h2, Function.update_noteq hk, Function.update_noteq hk]
  exact ⟨rfl, rfl⟩

/-- C15. For every successful `malloc2D` or `malloc3D` call started with
counter `n`: the call ends with counter `n + 1`; slot `n` holds the returned
handle as handle identity and, as buffer reference, the non-null base returned
by the flat-buffer request of this call (the second allocator request of the
call), a live block; every registry slot other than `n` is unchanged.  This is
the state in which the handle is returned. -/
theorem registration (s : State) (size_x size_y size_z : Nat) (type : VariableType) (h : Nat)
    (s' : State) :
    (malloc2D s size_x size_y type = (h, s') → h ≠ 0 →
      s'.arrays.counter = s.arrays.counter + 1 ∧
      s'.arrays.address s.arrays.counter = h ∧
      s'.arrays.elements s.arrays.counter ≠ 0 ∧
      (s'.heap (s'.arrays.elements s.arrays.counter)).live = true ∧
      s'.trace = s.trace ++ [Event.calloc size_x sizeof_ptr h,
        Event.calloc ((size_x * size_y) % UINT_RANGE) (get_variable_size type)
          (s'.arrays.elements s.arrays.counter)] ∧
      ∀ k, k ≠ s.arrays.counter →
        s'.arrays.address k = s.arrays.address k ∧
        s'.arrays.elements k = s.arrays.elements k) ∧
    (malloc3D s size_x size_y size_z type = (h, s') → h ≠ 0 →
      s'.arrays.counter = s.arrays.counter + 1 ∧
      s'.arrays.address s.arrays.counter = h ∧
      s'.arrays.elements s.arrays.counter ≠ 0 ∧
      (s'.heap (s'.arrays.elements s.arrays.counter)).live = true ∧
      (∃ tl, s'.trace = s.trace ++ Event.calloc size_x sizeof_ptr h ::
        Event.calloc (flatCount3D size_x size_y size_z) (get_variable_size type)
          (s'.arrays.elements s.arrays.counter) :: tl) ∧
      ∀ k, k ≠ s.arrays.counter →
        s'.arrays.address k = s.arrays.address k ∧
        s'.arrays.elements k = s.arrays.elements k) := by
  constructor
  · intro hm hh
    have hok : (malloc2D s size_x size_y type).1 ≠ 0 := by rw [hm]; exact hh
    obtain ⟨A, F, rest, hlim, ho, hA, hF, hAF, hlA, hlF⟩ :=
      malloc2D_success s size_x size_y type hok
    rw [malloc2D_grant s size_x size_y type A F rest hlim ho hA hF hAF hlA hlF] at hm
    obtain ⟨rfl, rfl⟩ := Prod.mk.inj hm
    obtain ⟨_, h2, h3, h4⟩ :=
      built2D_slot s size_x size_y (get_variable_size type) A F rest hlim
    rw [h4]
    exact ⟨h2, h3, hF, built2D_heap_F _ _ _ _ _ _ _ hAF, rfl,
      fun k hk => built2D_others _ _ _ _ _ _ _ k hk⟩
  · intro hm hh
    have hok : (malloc3D s size_x size_y size_z type).1 ≠ 0 := by rw [hm]; exact hh
    obtain ⟨A, F, rows, rest, hlim, ho, hlen, hg⟩ :=
      malloc3D_success s size_x size_y size_z type hok
    rw [malloc3D_grant s size_x size_y size_z type A F rows rest hlim ho hlen hg] at hm
    obtain ⟨rfl, rfl⟩ := Prod.mk.inj hm
    obtain ⟨_, h2, h3, h4⟩ :=
      built3D_slot s size_x size_y size_z (get_variable_size type) A F rows hlim
    obtain ⟨_, _, _, _, _, htr⟩ :=
      built3D_registry s size_x size_y size_z (get_variable_size type) A F rows
    rw [h4]
    refine ⟨h2, h3, hg.2.1, ?_, ⟨rows.map (fun a => Event.calloc size_y sizeof_ptr a), ?_⟩,
      fun k hk => built3D_others _ _ _ _ _ _ _ _ k hk⟩
    · rw [built3D_heap_F _ _ _ _ _ _ _ _ hg]
    · rw [htr]
      simp

/-- Witness for C15: a 1x1 `INT` array and a 1x1x1 `INT` array built at program
start. -/
theorem registration_witness :
    (malloc2D (State.init [1000, 2000, 3000]) 1 1 VariableType.INT =
        (1000, (malloc2D (State.init [1000, 2000, 3000]) 1 1 VariableType.INT).2) ∧
      (1000 : Nat) ≠ 0 ∧
      (malloc2D (State.init [1000, 2000, 3000]) 1 1 VariableType.INT).2.arrays.counter =
        (State.init [1000, 2000, 3000]).arrays.counter + 1) ∧
    (malloc3D (State.init [1000, 2000, 3000]) 1 1 1 VariableType.INT =
        (1000, (malloc3D (State.init [1000, 2000, 3000]) 1 1 1 VariableType.INT).2) ∧
      (malloc3D (State.init [1000, 2000, 3000]) 1 1 1 VariableType.INT).2.arrays.counter =
        (State.init [1000, 2000, 3000]).arrays.counter + 1) :=
  ⟨⟨Prod.ext (by decide) rfl, by decide,
      ((registration (State.init [1000, 2000, 3000]) 1 1 1 VariableType.INT 1000
        (malloc2D (State.init [1000, 2000, 3000]) 1 1 VariableType.INT).2).1
        (Prod.ext (by decide) rfl) (by decide)).1⟩,
    ⟨Prod.ext (by decide) rfl,
      ((registration (State.init [1000, 2000, 3000]) 1 1 1 VariableType.INT 1000
        (malloc3D (State.init [1000, 2000, 3000]) 1 1 1 VariableType.INT).2).2
        (Prod.ext (by decide) rfl) (by decide)).1⟩⟩

/-! ## What the release functions do to the registry -/

theorem malloc2D_success_counter (s : State) (size_x size_y : Nat) (type : VariableType)
    (h : (malloc2D s size_x size_y type).1 ≠ 0) :
    (malloc2D s size_x size_y type).2.arrays.counter = s.arrays.counter + 1 := by
  obtain ⟨A, F, rest, hlim, ho, hA, hF, hAF, hlA, hlF⟩ := malloc2D_success s size_x size_y type h
  rw [malloc2D_grant s size_x size_y type A F rest hlim ho hA hF hAF hlA hlF]
  exact (built2D_slot s size_x size_y (get_variable_size type) A F rest hlim).2.1

theorem malloc3D_success_counter (s : State) (size_x size_y size_z : Nat)
    (type : VariableType) (h : (malloc3D s size_x size_y size_z type).1 ≠ 0) :
    (malloc3D s size_x size_y size_z type).2.arrays.counter = s.arrays.counter + 1 := by
  obtain ⟨A, F, rows, rest, hlim, ho, hlen, hg⟩ :=
    malloc3D_success s size_x size_y size_z type h
  rw [malloc3D_grant s size_x size_y size_z type A F rows rest hlim ho hlen hg]
  exact (built3D_slot s size_x size_y size_z (get_variable_size type) A F rows hlim).2.1

theorem apply_counter (s : State) (op : Op) :
    s.arrays.counter ≤ (op.apply s).2.arrays.counter ∧
      (s.arrays.counter ≤ MAX_NUMBER_OF_ALLOCATED_ARRAYS →
        (op.apply s).2.arrays.counter ≤ MAX_NUMBER_OF_ALLOCATED_ARRAYS) := by
  cases op with
  | malloc1D size type =>
    simp only [Op.apply]
    rw [malloc1D_eq, (_calloc_sameRegistry s _ _).2.2]
    exact ⟨Nat.le_refl _, fun h => h⟩
  | malloc2D size_x size_y type =>
    simp only [Op.apply]
    rcases malloc2D_registry s size_x size_y type with h | ⟨h1, h2, _⟩
    · rw [h.2.2]
      exact ⟨Nat.le_refl _, fun h => h⟩
    · rw [h2]
      exact ⟨by omega, fun _ => by omega⟩
  | malloc3D size_x size_y size_z type =>
    simp only [Op.apply]
    rcases malloc3D_registry s size_x size_y size_z type with h | ⟨h1, h2, _⟩
    · rw [h.2.2]
      exact ⟨Nat.le_refl _, fun h => h⟩
    · rw [h2]
      exact ⟨by omega, fun _ => by omega⟩
  | free1D array size =>
    simp only [Op.apply]
    rw [free1D_arrays]
    exact ⟨Nat.le_refl _, fun h => h⟩
  | free2D array size_x size_y =>
    simp only [Op.apply]
    rw [(free2D_registry s array size_x size_y).1]
    exact ⟨Nat.le_refl _, fun h => h⟩
  | free3D array size_x size_y size_z =>
    simp only [Op.apply]
    rw [(free3D_registry s array size_x size_y size_z).1]
    exact ⟨Nat.le_refl _, fun h => h⟩

theorem run_counter_bound :
    ∀ (ops : List Op) (s : State), s.arrays.counter ≤ MAX_NUMBER_OF_ALLOCATED_ARRAYS →
      (run s ops).arrays.counter ≤ MAX_NUMBER_OF_ALLOCATED_ARRAYS := by
  intro ops
  induction ops with
  | nil =>
    intro s h
    exact h
  | cons op ops ih =>
    intro s h
    exact ih _ ((apply_counter s op).2 h)

theorem run_counter_successes :
    ∀ (ops : List Op) (s : State),
      s.arrays.counter + successes s ops ≤ (run s ops).arrays.counter := by
  intro ops
  induction ops with
  | nil =>
    intro s
    simp [run, successes]
  | cons op ops ih =>
    intro s
    have h1 := ih (op.apply s).2
    have h2 := (apply_counter s op).1
    simp only [run, successes]
    split
    · rename_i hs
      have h3 : (op.apply s).2.arrays.counter = s.arrays.counter + 1 := by
        cases op with
        | malloc2D size_x size_y type => exact malloc2D_success_counter s size_x size_y type hs.2
        | malloc3D size_x size_y size_z type =>
          exact malloc3D_success_counter s size_x size_y size_z type hs.2
        | malloc1D size type => exact absurd hs.1 (by simp [Op.isBuild])
        | free1D array size => exact absurd hs.1 (by simp [Op.isBuild])
        | free2D array size_x size_y => exact absurd hs.1 (by simp [Op.isBuild])
        | free3D array size_x size_y size_z => exact absurd hs.1 (by simp [Op.isBuild])
      omega
    · omega

/-- C13. The registry counter is at most `MAX_NUMBER_OF_ALLOCATED_ARRAYS` (150)
in every state reached from program start by any sequence of calls of
`malloc1D/2D/3D` and `free1D/2D/3D`, under any behaviour of the allocator; no
call, from any state, decreases the counter; and a table entry that `malloc2D`
or `malloc3D` changes has the index `arrays.counter` of the state the call
started in, which is below 150. -/
theorem counter_bounded (o : List Nat) (ops : List Op) (s : State) (op : Op)
    (size_x size_y size_z : Nat) (type : VariableType) (k : Nat) :
    MAX_NUMBER_OF_ALLOCATED_ARRAYS = 150 ∧
    (run (State.init o) ops).arrays.counter ≤ MAX_NUMBER_OF_ALLOCATED_ARRAYS ∧
    s.arrays.counter ≤ (op.apply s).2.arrays.counter ∧
    ((malloc2D s size_x size_y type).2.arrays.elements k ≠ s.arrays.elements k ∨
        (malloc2D s size_x size_y type).2.arrays.address k ≠ s.arrays.address k →
      k = s.arrays.counter ∧ k < MAX_NUMBER_OF_ALLOCATED_ARRAYS) ∧
    ((malloc3D s size_x size_y size_z type).2.arrays.elements k ≠ s.arrays.elements k ∨
        (malloc3D s size_x size_y size_z type).2.arrays.address k ≠ s.arrays.address k →
      k = s.arrays.counter ∧ k < MAX_NUMBER_OF_ALLOCATED_ARRAYS) := by
  refine ⟨rfl, run_counter_bound ops (State.init o) (Nat.zero_le _), (apply_counter s op).1,
    ?_, ?_⟩
  · intro hch
    rcases malloc2D_registry s size_x size_y type with h | ⟨h1, _, h3⟩
    · rw [h.1, h.2.1] at hch
      rcases hch with hch | hch <;> exact absurd rfl hch
    · by_cases hk : k = s.arrays.counter
      · exact ⟨hk, by omega⟩
      · rw [(h3 k hk).1, (h3 k hk).2] at hch
        rcases hch with hch | hch <;> exact absurd rfl hch
  · intro hch
    rcases malloc3D_registry s size_x size_y size_z type with h | ⟨h1, _, h3⟩
    · rw [h.1, h.2.1] at hch
      rcases hch with hch | hch <;> exact absurd rfl hch
    · by_cases hk : k = s.arrays.counter
      · exact ⟨hk, by omega⟩
      · rw [(h3 k hk).1, (h3 k hk).2] at hch
        rcases hch with hch | hch <;> exact absurd rfl hch

/-- Witness for C13: `malloc2D(1, 1, INT)` at program start changes the
buffer-reference table at index 0. -/
theorem counter_bounded_witness :
    (malloc2D (State.init [1000, 2000]) 1 1 VariableType.INT).2.arrays.elements 0 ≠
      (State.init [1000, 2000]).arrays.elements 0 ∧
    (0 = (State.init [1000, 2000]).arrays.counter ∧ 0 < MAX_NUMBER_OF_ALLOCATED_ARRAYS) :=
  ⟨by decide,
    (counter_bounded [] [] (State.init [1000, 2000]) (Op.free1D 0 0) 1 1 1 VariableType.INT
      0).2.2.2.1 (Or.inl (by decide))⟩

/-- C17. Starting from program start (empty registry), after any sequence of calls,
under any behaviour of the allocator, in which 150 calls of `malloc2D` /
`malloc3D` have succeeded, whatever was released in between, every further
`malloc2D` or `malloc3D` call returns `NULL` at the capacity test and leaves the
state unchanged. -/
theorem registry_exhausted (o : List Nat) (ops : List Op) (size_x size_y size_z : Nat)
    (type : VariableType)
    (h : successes (State.init o) ops = MAX_NUMBER_OF_ALLOCATED_ARRAYS) :
    MAX_NUMBER_OF_ALLOCATED_ARRAYS = 150 ∧
    isLimitReached (run (State.init o) ops) = true ∧
    malloc2D (run (State.init o) ops) size_x size_y type = (0, run (State.init o) ops) ∧
    malloc3D (run (State.init o) ops) size_x size_y size_z type =
      (0, run (State.init o) ops) := by
  have h1 := run_counter_successes ops (State.init o)
  rw [h] at h1
  have hfull : isLimitReached (run (State.init o) ops) = true := by
    unfold isLimitReached
    simp only [decide_eq_true_eq]
    have h0 : (State.init o).arrays.counter = 0 := rfl
    omega
  refine ⟨rfl, hfull, ?_, ?_⟩
  · unfold malloc2D
    rw [if_pos hfull]
  · unfold malloc3D
    rw [if_pos hfull]

set_option maxRecDepth 20000 in
/-- Witness for C17: from program start, 150 allocations each released at once;
all 150 succeed, and the next `malloc2D` is rejected. -/
theorem registry_exhausted_witness :
    successes (State.init (List.range' 1 300)) exhaustingCalls =
        MAX_NUMBER_OF_ALLOCATED_ARRAYS ∧
    malloc2D (run (State.init (List.range' 1 300)) exhaustingCalls) 1 1 VariableType.INT =
      (0, run (State.init (List.range' 1 300)) exhaustingCalls) :=
  (fun h => ⟨h, (registry_exhausted (List.range' 1 300) exhaustingCalls 1 1 1
    VariableType.INT h).2.2.1⟩) (by decide)

/-! ## Element cells and the flat buffer -/

theorem index_lt (y i j i' j' : Nat) (hj : j < y) (h : i < i') : i * y + j < i' * y + j' := by
  have h1 : (i + 1) * y ≤ i' * y := Nat.mul_le_mul_right y h
  have h2 : (i + 1) * y = i * y + y := by ring
  omega

theorem index_ne (y i j i' j' : Nat) (hj : j < y) (hj' : j' < y) (h : i ≠ i' ∨ j ≠ j') :
    i * y + j ≠ i' * y + j' := by
  rcases Nat.lt_trichotomy i i' with hlt | heq | hgt
  · exact Nat.ne_of_lt (index_lt y i j i' j' hj hlt)
  · subst heq
    rcases h with h | h
    · exact absurd rfl h
    · omega
  · exact Nat.ne_of_gt (index_lt y i' j' i j hj' hgt)

theorem index_bound (x y i j : Nat) (hi : i < x) (hj : j < y) : i * y + j + 1 ≤ x * y := by
  have h1 : (i + 1) * y ≤ x * y := Nat.mul_le_mul_right y hi
  have h2 : (i + 1) * y = i * y + y := by ring
  omega

theorem cells_apart (b w m n : Nat) (h : m ≠ n) :
    b + m * w + w ≤ b + n * w ∨ b + n * w + w ≤ b + m * w := by
  rcases Nat.lt_or_gt_of_ne h with hlt | hgt
  · left
    have h1 : (m + 1) * w ≤ n * w := Nat.mul_le_mul_right w hlt
    have h2 : (m + 1) * w = m * w + w := by ring
    omega
  · right
    have h1 : (n + 1) * w ≤ m * w := Nat.mul_le_mul_right w hgt
    have h2 : (n + 1) * w = n * w + w := by ring
    omega

theorem cell_inside (b w m total : Nat) (h : m + 1 ≤ total) :
    b ≤ b + m * w ∧ b + m * w + w ≤ b + total * w := by
  have h1 : (m + 1) * w ≤ total * w := Nat.mul_le_mul_right w h
  have h2 : (m + 1) * w = m * w + w := by ring
  omega

theorem built2D_subscript (s : State) (size_x size_y w A F : Nat) (rest : List Nat)
    (hfit : size_x * size_y < UINT_RANGE) (hw : w ≤ 8) (i j : Nat) (hi : i < size_x) :
    subscript2D (built2D s size_x size_y w A F rest) A i j w = F + (i * size_y + j) * w := by
  unfold subscript2D
  simp only [built2D, Function.update_same, if_pos hi]
  rw [offset2D_exact size_x size_y w i hfit hw hi]
  ring

theorem built3D_subscript (s : State) (size_x size_y size_z w A F : Nat) (rows : List Nat)
    (hg : Granted s A F rows) (hlen : rows.length = size_x)
    (hfit : size_x * size_y * size_z < UINT_RANGE) (hw : w ≤ 8) (i j k : Nat)
    (hi : i < size_x) (hj : j < size_y) :
    subscript3D (built3D s size_x size_y size_z w A F rows) A i j k w =
      F + ((i * size_y + j) * size_z + k) * w := by
  have hi2 : i < rows.length := by omega
  unfold subscript3D
  rw [built3D_heap_A s size_x size_y size_z w A F rows hg]
  simp only [if_pos hi2]
  rw [built3D_heap_row s size_x size_y size_z w A F rows hg i hi2]
  simp only [if_pos hj]
  rw [offset3D_exact size_x size_y size_z w i j hfit hw hi hj]
  ring

theorem eq_pair_of_fst {p : Nat × State} {a : Nat} (h : p.1 = a) : p = (a, p.2) := by
  subst h
  rfl

/-- C18. For every successful `malloc2D` / `malloc3D` with an element type of
width `w > 0` and extents whose product fits in an `unsigned int`, with `b` the
registered flat-buffer base (a live block of `size_x * size_y`, resp.
`size_x * size_y * size_z`, members of `w` bytes): every element cell reached by
subscripting the handle, `[handle[i] + j*w, handle[i] + (j+1)*w)` resp.
`[handle[i][j] + k*w, handle[i][j] + (k+1)*w)`, lies inside
`[b, b + total*w)`, and the cells of distinct index tuples do not overlap (so the
map from index tuples to addresses is injective). -/
theorem cells_inside_flat_buffer (s : State) (size_x size_y size_z : Nat)
    (type : VariableType) (h : Nat) (s' : State) (hw : 0 < get_variable_size type) :
    (malloc2D s size_x size_y type = (h, s') → h ≠ 0 → size_x * size_y < UINT_RANGE →
      ((s'.heap (s'.arrays.elements s.arrays.counter)).live = true ∧
        (s'.heap (s'.arrays.elements s.arrays.counter)).nmemb = size_x * size_y ∧
        (s'.heap (s'.arrays.elements s.arrays.counter)).size = get_variable_size type) ∧
      (∀ i j, i < size_x → j < size_y →
        s'.arrays.elements s.arrays.counter ≤ subscript2D s' h i j (get_variable_size type) ∧
        subscript2D s' h i j (get_variable_size type) + get_variable_size type ≤
          s'.arrays.elements s.arrays.counter + size_x * size_y * get_variable_size type) ∧
      (∀ i j i' j', i < size_x → j < size_y → i' < size_x → j' < size_y →
        (i ≠ i' ∨ j ≠ j') →
        subscript2D s' h i j (get_variable_size type) ≠
          subscript2D s' h i' j' (get_variable_size type) ∧
        (subscript2D s' h i j (get_variable_size type) + get_variable_size type ≤
            subscript2D s' h i' j' (get_variable_size type) ∨
          subscript2D s' h i' j' (get_variable_size type) + get_variable_size type ≤
            subscript2D s' h i j (get_variable_size type)))) ∧
    (malloc3D s size_x size_y size_z type = (h, s') → h ≠ 0 →
      size_x * size_y * size_z < UINT_RANGE →
      ((s'.heap (s'.arrays.elements s.arrays.counter)).live = true ∧
        (s'.heap (s'.arrays.elements s.arrays.counter)).nmemb = size_x * size_y * size_z ∧
        (s'.heap (s'.arrays.elements s.arrays.counter)).size = get_variable_size type) ∧
      (∀ i j k, i < size_x → j < size_y → k < size_z →
        s'.arrays.elements s.arrays.counter ≤
          subscript3D s' h i j k (get_variable_size type) ∧
        subscript3D s' h i j k (get_variable_size type) + get_variable_size type ≤
          s'.arrays.elements s.arrays.counter +
            size_x * size_y * size_z * get_variable_size type) ∧
      (∀ i j k i' j' k', i < size_x → j < size_y → k < size_z →
        i' < size_x → j' < size_y → k' < size_z → (i ≠ i' ∨ j ≠ j' ∨ k ≠ k') →
        subscript3D s' h i j k (get_variable_size type) ≠
          subscript3D s' h i' j' k' (get_variable_size type) ∧
        (subscript3D s' h i j k (get_variable_size type) + get_variable_size type ≤
            subscript3D s' h i' j' k' (get_variable_size type) ∨
          subscript3D s' h i' j' k' (get_variable_size type) + get_variable_size type ≤
            subscript3D s' h i j k (get_variable_size type)))) := by
  have hw8 := get_variable_size_le type
  constructor
  · intro hm hh hfit
    have hok : (malloc2D s size_x size_y type).1 ≠ 0 := by rw [hm]; exact hh
    obtain ⟨A, F, rest, hlim, ho, hA, hF, hAF, hlA, hlF⟩ :=
      malloc2D_success s size_x size_y type hok
    rw [malloc2D_grant s size_x size_y type A F rest hlim ho hA hF hAF hlA hlF] at hm
    obtain ⟨rfl, rfl⟩ := Prod.mk.inj hm
    obtain ⟨_, _, _, h4⟩ := built2D_slot s size_x size_y (get_variable_size type) A F rest hlim
    rw [h4]
    refine ⟨?_, ?_, ?_⟩
    · simp [built2D, Function.update_noteq (Ne.symm hAF), Nat.mod_eq_of_lt hfit]
    · intro i j hi hj
      rw [built2D_subscript s size_x size_y _ A F rest hfit hw8 i j hi]
      exact cell_inside F _ _ _ (index_bound size_x size_y i j hi hj)
    · intro i j i' j' hi hj hi' hj' hne
      rw [built2D_subscript s size_x size_y _ A F rest hfit hw8 i j hi,
        built2D_subscript s size_x size_y _ A F rest hfit hw8 i' j' hi']
      have hidx := index_ne size_y i j i' j' hj hj' hne
      have hap := cells_apart F (get_variable_size type) _ _ hidx
      refine ⟨fun heq => ?_, hap⟩
      rcases hap with hap | hap <;> omega
  · intro hm hh hfit
    have hok : (malloc3D s size_x size_y size_z type).1 ≠ 0 := by rw [hm]; exact hh
    obtain ⟨A, F, rows, rest, hlim, ho, hlen, hg⟩ :=
      malloc3D_success s size_x size_y size_z type hok
    rw [malloc3D_grant s size_x size_y size_z type A F rows rest hlim ho hlen hg] at hm
    obtain ⟨rfl, rfl⟩ := Prod.mk.inj hm
    obtain ⟨_, _, _, h4⟩ :=
      built3D_slot s size_x size_y size_z (get_variable_size type) A F rows hlim
    rw [h4]
    refine ⟨?_, ?_, ?_⟩
    · rw [built3D_heap_F _ _ _ _ _ _ _ _ hg, flatCount3D_exact _ _ _ hfit]
      exact ⟨rfl, rfl, rfl⟩
    · intro i j k hi hj hk
      rw [built3D_subscript s size_x size_y size_z _ A F rows hg hlen hfit hw8 i j k hi hj]
      have h1 := index_bound size_x size_y i j hi hj
      have h2 := index_bound (size_x * size_y) size_z (i * size_y + j) k (by omega) hk
      exact cell_inside F _ _ _ h2
    · intro i j k i' j' k' hi hj hk hi' hj' hk' hne
      rw [built3D_subscript s size_x size_y size_z _ A F rows hg hlen hfit hw8 i j k hi hj,
        built3D_subscript s size_x size_y size_z _ A F rows hg hlen hfit hw8 i' j' k' hi' hj']
      have hidx : (i * size_y + j) * size_z + k ≠ (i' * size_y + j') * size_z + k' := by
        apply index_ne size_z _ k _ k' hk hk'
        by_cases hij : i * size_y + j = i' * size_y + j'
        · right
          rcases hne with hne | hne | hne
          · exact absurd hij (index_ne size_y i j i' j' hj hj' (Or.inl hne))
          · exact absurd hij (index_ne size_y i j i' j' hj hj' (Or.inr hne))
          · exact hne
        · exact Or.inl hij
      have hap := cells_apart F (get_variable_size type) _ _ hidx
      refine ⟨fun heq => ?_, hap⟩
      rcases hap with hap | hap <;> omega

/-- Witness for C18: a 3x4 `INT` array and a 2x3x4 `INT` array built at program
start. -/
theorem cells_inside_flat_buffer_witness :
    0 < get_variable_size VariableType.INT ∧
    (malloc2D (State.init [1000, 2000]) 3 4 VariableType.INT =
        (1000, (malloc2D (State.init [1000, 2000]) 3 4 VariableType.INT).2) ∧
      (1000 : Nat) ≠ 0 ∧ 3 * 4 < UINT_RANGE ∧
      subscript2D (malloc2D (State.init [1000, 2000]) 3 4 VariableType.INT).2 1000 2 3
          (get_variable_size VariableType.INT) + get_variable_size VariableType.INT ≤
        (malloc2D (State.init [1000, 2000]) 3 4 VariableType.INT).2.arrays.elements
          (State.init [1000, 2000]).arrays.counter + 3 * 4 * get_variable_size VariableType.INT) ∧
    (malloc3D (State.init [1000, 2000, 3000, 4000]) 2 3 4 VariableType.INT =
        (1000, (malloc3D (State.init [1000, 2000, 3000, 4000]) 2 3 4 VariableType.INT).2) ∧
      2 * 3 * 4 < UINT_RANGE ∧
      subscript3D (malloc3D (State.init [1000, 2000, 3000, 4000]) 2 3 4 VariableType.INT).2
          1000 1 2 3 (get_variable_size VariableType.INT) +
          get_variable_size VariableType.INT ≤
        (malloc3D (State.init [1000, 2000, 3000, 4000]) 2 3 4 VariableType.INT).2.arrays.elements
          (State.init [1000, 2000, 3000, 4000]).arrays.counter +
            2 * 3 * 4 * get_variable_size VariableType.INT) :=
  ⟨by decide,
    ⟨eq_pair_of_fst (by decide), by decide, by decide,
      (((cells_inside_flat_buffer (State.init [1000, 2000]) 3 4 1 VariableType.INT 1000
        (malloc2D (State.init [1000, 2000]) 3 4 VariableType.INT).2 (by decide)).1
        (eq_pair_of_fst (by decide)) (by decide) (by decide)).2.1 2 3 (by decide)
        (by decide)).2⟩,
    ⟨eq_pair_of_fst (by decide), by decide,
      (((cells_inside_flat_buffer (State.init [1000, 2000, 3000, 4000]) 2 3 4
        VariableType.INT 1000
        (malloc3D (State.init [1000, 2000, 3000, 4000]) 2 3 4 VariableType.INT).2
        (by decide)).2
        (eq_pair_of_fst (by decide)) (by decide) (by decide)).2.1 1 2 3 (by decide) (by decide)
        (by decide)).2⟩⟩

/-! ## Release of a flat buffer that was already released -/

/-- C11 at the failing input. A `malloc3D` call fails at its second second-level
request and rolls back, releasing its flat buffer `2000` (and leaving slot 0
with the handle identity `1000` and the buffer reference `2000`).  A later
`malloc2D` succeeds and returns `1000` (the address is handed out again; its
flat buffer is `3000`).  The caller passes this handle, once and with its
extents, to `free2D`: the scan stops at slot 0 and calls `free` on `2000`, which
was released by the roll-back and not allocated since: `free(2000)` occurs twice
in the execution after a single `calloc` returning `2000`, the execution has
undefined behaviour, and the flat buffer `3000` of the released handle stays
live. -/
theorem free2D_releases_rolled_back_buffer :
    (malloc3D (State.init [1000, 2000, 3000, 0, 1000, 3000]) 2 1 1000 VariableType.INT).1 = 0 ∧
    State.afterRollback.trace =
      [Event.calloc 2 8 1000, Event.calloc 2000 4 2000, Event.calloc 1 8 3000,
        Event.calloc 1 8 0, Event.free 3000, Event.free 2000, Event.free 1000] ∧
    State.afterRollback.ub = false ∧
    State.afterRollback.arrays.counter = 1 ∧
    State.afterRollback.arrays.address 0 = 1000 ∧
    State.afterRollback.arrays.elements 0 = 2000 ∧
    (malloc2D State.afterRollback 1 1 VariableType.INT).1 = 1000 ∧
    (malloc2D State.afterRollback 1 1 VariableType.INT).2.arrays.elements 1 = 3000 ∧
    (free2D (malloc2D State.afterRollback 1 1 VariableType.INT).2 1000 1 1).trace =
      [Event.calloc 2 8 1000, Event.calloc 2000 4 2000, Event.calloc 1 8 3000,
        Event.calloc 1 8 0, Event.free 3000, Event.free 2000, Event.free 1000,
        Event.calloc 1 8 1000, Event.calloc 1 4 3000, Event.free 2000, Event.free 1000] ∧
    (free2D (malloc2D State.afterRollback 1 1 VariableType.INT).2 1000 1 1).ub = true ∧
    ((free2D (malloc2D State.afterRollback 1 1 VariableType.INT).2 1000 1 1).heap 3000).live
      = true :=
  ⟨by decide, by decide, by decide, by decide, by decide, by decide, by decide, by decide,
    by decide, by decide, by decide⟩

/-! ## Two live entries with one handle identity -/

/-- C12 at the failing input. From program start, with the allocator handing out
the address `1000` for every outer level: allocate a 1x1 array (handle `1000`),
release it, allocate again (handle `1000`, flat buffer `2000`, slot 1), release
it (the scan stops at the stale slot 0, so slot 1 keeps its buffer reference),
allocate a third time (handle `1000`, flat buffer `3000`, slot 2).  No call
failed and no undefined behaviour occurred, yet slots 1 and 2, both below the
counter, both with a non-null buffer reference, carry the same handle identity. -/
theorem two_live_entries_one_identity :
    (run (State.init [1000, 2000, 1000, 2000, 1000, 3000]) reuseCalls).ub = false ∧
    (run (State.init [1000, 2000, 1000, 2000, 1000, 3000]) reuseCalls).arrays.counter = 3 ∧
    (run (State.init [1000, 2000, 1000, 2000, 1000, 3000]) reuseCalls).arrays.address 1
      = 1000 ∧
    (run (State.init [1000, 2000, 1000, 2000, 1000, 3000]) reuseCalls).arrays.address 2
      = 1000 ∧
    (run (State.init [1000, 2000, 1000, 2000, 1000, 3000]) reuseCalls).arrays.elements 1
      = 2000 ∧
    (run (State.init [1000, 2000, 1000, 2000, 1000, 3000]) reuseCalls).arrays.elements 2
      = 3000 ∧
    successes (State.init [1000, 2000, 1000, 2000, 1000, 3000]) reuseCalls = 3 ∧
    ¬ (∀ i j, i < (run (State.init [1000, 2000, 1000, 2000, 1000, 3000])
          reuseCalls).arrays.counter →
        j < (run (State.init [1000, 2000, 1000, 2000, 1000, 3000]) reuseCalls).arrays.counter →
        i ≠ j →
        (run (State.init [1000, 2000, 1000, 2000, 1000, 3000]) reuseCalls).arrays.elements i
          ≠ 0 →
        (run (State.init [1000, 2000, 1000, 2000, 1000, 3000]) reuseCalls).arrays.elements j
          ≠ 0 →
        (run (State.init [1000, 2000, 1000, 2000, 1000, 3000]) reuseCalls).arrays.address i ≠
          (run (State.init [1000, 2000, 1000, 2000, 1000, 3000]) reuseCalls).arrays.address
            j) :=
  ⟨by decide, by decide, by decide, by decide, by decide, by decide, by decide,
    fun h => h 1 2 (by decide) (by decide) (by decide) (by decide) (by decide) (by decide)⟩

end MemoryManagement
